import Mathlib

/-!
# cloudflare_ddns: a shallow embedding of `main.go`

The program is a sequential loop.  Every tick it asks an echo endpoint for the
public IPv4 and IPv6 address and creates or updates the A and AAAA record of
one host name at the DNS provider.

The embedding has three layers.

* The pieces of Go's standard library that decide the behaviour of the
  program (`net.ParseIP`, `IP.To4`, `IP.To16`, `IP.String`,
  `strings.TrimSpace`, `strconv.Atoi`) are written out as executable
  functions.  They are not code of this repository; they follow the
  algorithms of `net/ip.go`, `net/netip`, `strings` and `strconv`.
* The remote services (echo endpoint, DNS provider) are oracles: a value of
  type `World` fixes what every remote call answers.  Every function that
  performs remote calls returns, next to its result, the list of calls it
  made, in order.
* The functions of `main.go` are translated one by one and keep their names.
-/

namespace CloudflareDDNS

/-! ## Go standard library: `net.IP` -/

/-- Go's `net.IP` is a byte slice.  The nil slice is the empty list. -/
abbrev IP := List Nat

/-- Length of an IPv4 address in bytes (`net.IPv4len`). -/
def IPv4len : Nat := 4

/-- Length of an IPv6 address in bytes (`net.IPv6len`). -/
def IPv6len : Nat := 16

/-- Go's `net.IPv4`: the 16-byte form `::ffff:a.b.c.d` of an IPv4 address. -/
def IPv4 (a b c d : Nat) : IP :=
  [0, 0, 0, 0, 0, 0, 0, 0, 0, 0, 0xff, 0xff, a, b, c, d]

/-- Go's `isZeros`: every byte is zero. -/
def isZeros (p : List Nat) : Bool :=
  p.all (fun b => b == 0)

/-- Go's `IP.To4`: the 4-byte form of an IPv4 address, nil for anything else. -/
def To4 (ip : IP) : IP :=
  if ip.length == IPv4len then ip
  else if ip.length == IPv6len && isZeros (ip.take 10)
      && ip.getD 10 0 == 0xff && ip.getD 11 0 == 0xff then ip.drop 12
  else []

/-- Go's `IP.To16`: the 16-byte form of an address, nil when the length is
neither 4 nor 16.  It does not look at the family. -/
def To16 (ip : IP) : IP :=
  if ip.length == IPv4len then
    IPv4 (ip.getD 0 0) (ip.getD 1 0) (ip.getD 2 0) (ip.getD 3 0)
  else if ip.length == IPv6len then ip
  else []

/-! ## Go standard library: `net.ParseIP`

`net.ParseIP` calls `netip.ParseAddr`, rejects an address with a zone and
returns the 16-byte form of the address. -/

/-- Is the character a decimal digit. -/
def isDigit (c : Char) : Bool :=
  48 ≤ c.toNat && c.toNat ≤ 57

/-- Value of a hexadecimal digit, `none` for any other character. -/
def hexVal (c : Char) : Option Nat :=
  if 48 ≤ c.toNat && c.toNat ≤ 57 then some (c.toNat - 48)
  else if 97 ≤ c.toNat && c.toNat ≤ 102 then some (c.toNat - 97 + 10)
  else if 65 ≤ c.toNat && c.toNat ≤ 70 then some (c.toNat - 65 + 10)
  else none

/-- The loop of `netip.parseIPv4Fields` over the text still to read.  `prev`
is the character before the text (`none` at the start of the field text),
`val` the value of the octet being read, `pos` the number of octets stored,
`digLen` the number of digits of the octet being read and `fields` the octets
stored.  An octet has no leading zero and is at most 255; a dot stands neither
first nor last nor after a dot, and there are exactly three.  Returns the four
octets, `none` for an error. -/
def parseIPv4FieldsLoop :
    List Char → Option Char → Nat → Nat → Nat → List Nat → Option (List Nat)
  | [], _, val, pos, _, fields =>
    if pos < 3 then none else some (fields ++ [val])
  | c :: cs, prev, val, pos, digLen, fields =>
    if isDigit c then
      if digLen == 1 && val == 0 then none
      else
        let val1 := val * 10 + (c.toNat - 48)
        if val1 > 255 then none
        else parseIPv4FieldsLoop cs (some c) val1 pos (digLen + 1) fields
    else if c == '.' then
      if prev.isNone || cs.isEmpty || prev == some '.' then none
      else if pos == 3 then none
      else parseIPv4FieldsLoop cs (some c) 0 (pos + 1) 0 (fields ++ [val])
    else none

/-- Go's `netip.parseIPv4Fields` on the whole of `s`: the four octets of a
dotted decimal text, `none` for an error. -/
def parseIPv4Fields (s : List Char) : Option (List Nat) :=
  parseIPv4FieldsLoop s none 0 0 0 []

/-- Go's `netip.parseIPv4` followed by `As16`: dotted decimal to the 16-byte
form, `none` for an error. -/
def parseIPv4 (s : List Char) : Option IP :=
  match parseIPv4Fields s with
  | some [a, b, c, d] => some (IPv4 a b c d)
  | _ => none

/-- The hexadecimal number loop of `netip.parseIPv6`.  `off` is the number of
digits read and `acc` their value, a `uint32`.  A fifth digit is an error, and
so is a value above `0xFFFF`.  Returns the value and the number of digits,
`none` for an error. -/
def hexGroup : List Char → Nat → Nat → Option (Nat × Nat)
  | [], off, acc => some (acc, off)
  | c :: cs, off, acc =>
    match hexVal c with
    | none => some (acc, off)
    | some v =>
      let acc1 := (acc * 16 + v) % 2 ^ 32
      if off > 3 then none
      else if acc1 > 0xFFFF then none
      else hexGroup cs (off + 1) acc1

/-- The main loop of `netip.parseIPv6`.  `acc` holds the bytes `ip[0..i)`
written so far (so `i = acc.length`), `ell` the position of the ellipsis when
one was seen, `s` the text still to read.  The result is the state at the end
of the loop, `none` when the loop returned an error. -/
def parseIPv6Loop :
    Nat → List Nat → Option Nat → List Char → Option (List Nat × Option Nat × List Char)
  | 0, acc, ell, s => some (acc, ell, s)
  | fuel + 1, acc, ell, s =>
    if acc.length ≥ IPv6len then some (acc, ell, s)
    else
      match hexGroup s 0 0 with
      | none => none
      | some (n, off) =>
        if off == 0 then none
        else if off < s.length && s.getD off ' ' == '.' then
          if ell.isNone && acc.length != IPv6len - IPv4len then none
          else if acc.length + IPv4len > IPv6len then none
          else
            match parseIPv4Fields s with
            | none => none
            | some fields => some (acc ++ fields, ell, [])
        else
          let acc1 := acc ++ [n / 256, n % 256]
          match s.drop off with
          | [] => some (acc1, ell, [])
          | ':' :: t =>
            match t with
            | [] => none
            | ':' :: t1 =>
              if ell.isSome then none
              else if t1.isEmpty then some (acc1, some acc1.length, [])
              else parseIPv6Loop fuel acc1 (some acc1.length) t1
            | _ => parseIPv6Loop fuel acc1 ell t
          | _ => none

/-- The end of `netip.parseIPv6`: the whole text must be used, and an ellipsis
is expanded to the missing zero bytes; an ellipsis with nothing to expand to
is an error. -/
def parseIPv6Finish (acc : List Nat) (ell : Option Nat) (s : List Char) : Option IP :=
  if !s.isEmpty then none
  else if acc.length < IPv6len then
    match ell with
    | none => none
    | some e => some (acc.take e ++ List.replicate (IPv6len - acc.length) 0 ++ acc.drop e)
  else if ell.isSome then none
  else some acc

/-- The split of `netip.parseIPv6` at the first percent sign: the address text
and, when there is a percent sign, the zone after it. -/
def splitZone : List Char → List Char × Option (List Char)
  | [] => ([], none)
  | c :: cs =>
    if c == '%' then ([], some cs)
    else ((c :: (splitZone cs).1), (splitZone cs).2)

/-- The address part of `netip.parseIPv6`: IPv6 text (RFC 4291, with an
optional trailing dotted IPv4 part) to 16 bytes, `none` for an error. -/
def parseIPv6Address (s : List Char) : Option IP :=
  match s with
  | ':' :: ':' :: t =>
    if t.isEmpty then some (List.replicate IPv6len 0)
    else
      match parseIPv6Loop 8 [] (some 0) t with
      | none => none
      | some (acc, ell, rest) => parseIPv6Finish acc ell rest
  | _ =>
    match parseIPv6Loop 8 [] none s with
    | none => none
    | some (acc, ell, rest) => parseIPv6Finish acc ell rest

/-- Go's `netip.parseIPv6`: the 16 bytes of the address and its zone (empty
when the text names none), `none` for an error.  A percent sign with nothing
after it is an error. -/
def parseIPv6 (s : List Char) : Option (IP × List Char) :=
  match splitZone s with
  | (_, some []) => none
  | (address, some zone) => (parseIPv6Address address).map fun ip => (ip, zone)
  | (address, none) => (parseIPv6Address address).map fun ip => (ip, [])

/-- The scan of `netip.ParseAddr`: the first dot, colon or percent sign of
`rest` decides how the whole text `s` is parsed. -/
def parseAddrScan (s : List Char) : List Char → Option (IP × List Char)
  | [] => none
  | c :: cs =>
    if c == '.' then (parseIPv4 s).map fun ip => (ip, [])
    else if c == ':' then parseIPv6 s
    else if c == '%' then none
    else parseAddrScan s cs

/-- Go's `netip.ParseAddr`, as far as `net.ParseIP` uses it: the 16-byte form
of the address (`As16`) and its zone, `none` for an error. -/
def ParseAddr (s : String) : Option (IP × List Char) :=
  parseAddrScan s.data s.data

/-- Go's `net.ParseIP`: nil when the text is no IP address or names a zone,
else the address in 16-byte form (an IPv4 address in the form
`::ffff:a.b.c.d`). -/
def ParseIP (s : String) : IP :=
  match ParseAddr s with
  | some (ip, zone) => if zone.isEmpty then ip else []
  | none => []

/-! ## Go standard library: `IP.String` -/

/-- Go's `hexDigit` table. -/
def hexDigit (v : Nat) : Char :=
  "0123456789abcdef".data.getD v '0'

/-- Go's `uitoa`: decimal text of an unsigned integer. -/
def uitoa (n : Nat) : String :=
  Nat.repr n

/-- Go's `appendHex`: lower-case hexadecimal text without leading zeros. -/
def appendHex (i : Nat) : List Char :=
  if i == 0 then ['0']
  else
    [7, 6, 5, 4, 3, 2, 1, 0].filterMap fun j =>
      let v := i / 16 ^ j
      if v > 0 then some (hexDigit (v % 16)) else none

/-- Go's `hexString`: two hexadecimal digits for every byte. -/
def hexString (b : List Nat) : List Char :=
  b.flatMap fun x => [hexDigit (x / 16), hexDigit (x % 16)]

/-- The inner loop of the zero-run search of `IP.String`: the end of the run
of zero groups that starts at byte `j`. -/
def zeroRunEnd (p : IP) : Nat → Nat → Nat
  | 0, j => j
  | fuel + 1, j =>
    if j < IPv6len && p.getD j 0 == 0 && p.getD (j + 1) 0 == 0 then
      zeroRunEnd p fuel (j + 2)
    else j

/-- The outer loop of the zero-run search of `IP.String`: the longest run of
zero groups as a pair of byte positions `(e0, e1)`, `(-1, -1)` when there is
none. -/
def longestZeroRun (p : IP) : Nat → Nat → Int → Int → Int × Int
  | 0, _, e0, e1 => (e0, e1)
  | fuel + 1, i, e0, e1 =>
    if i < IPv6len then
      let j := zeroRunEnd p 8 i
      if j > i && (j : Int) - (i : Int) > e1 - e0 then
        longestZeroRun p fuel (j + 2) i j
      else longestZeroRun p fuel (i + 2) e0 e1
    else (e0, e1)

/-- The printing loop of `IP.String`: groups in hexadecimal separated by
colons, the run `[e0, e1)` replaced by a double colon. -/
def printGroups (p : IP) (e0 e1 : Int) : Nat → Nat → List Char → List Char
  | 0, _, b => b
  | fuel + 1, i, b =>
    if i < IPv6len then
      if (i : Int) == e0 then
        let b1 := b ++ [':', ':']
        let i1 := e1.toNat
        if i1 ≥ IPv6len then b1
        else
          printGroups p e0 e1 fuel (i1 + 2)
            (b1 ++ appendHex (p.getD i1 0 * 256 + p.getD (i1 + 1) 0))
      else
        let b1 := if i > 0 then b ++ [':'] else b
        printGroups p e0 e1 fuel (i + 2)
          (b1 ++ appendHex (p.getD i 0 * 256 + p.getD (i + 1) 0))
    else b

/-- Go's `IP.String`: dotted decimal for an IPv4 address (also in its 16-byte
form), RFC 5952 text for any other 16-byte address. -/
def ipString (ip : IP) : String :=
  if ip.length == 0 then "<nil>"
  else
    let p4 := To4 ip
    if p4.length == IPv4len then
      uitoa (p4.getD 0 0) ++ "." ++ uitoa (p4.getD 1 0) ++ "." ++
        uitoa (p4.getD 2 0) ++ "." ++ uitoa (p4.getD 3 0)
    else if ip.length != IPv6len then String.mk ('?' :: hexString ip)
    else
      let e := longestZeroRun ip 8 0 (-1) (-1)
      let e01 : Int × Int := if e.2 - e.1 ≤ 2 then (-1, -1) else e
      String.mk (printGroups ip e01.1 e01.2 8 0 [])

/-! ## Go standard library: `strings.TrimSpace` and `strconv.Atoi` -/

/-- Go's `unicode.IsSpace`. -/
def isSpace (c : Char) : Bool :=
  let n := c.toNat
  n == 0x09 || n == 0x0A || n == 0x0B || n == 0x0C || n == 0x0D || n == 0x20
    || n == 0x85 || n == 0xA0 || n == 0x1680 || (0x2000 ≤ n && n ≤ 0x200A)
    || n == 0x2028 || n == 0x2029 || n == 0x202F || n == 0x205F || n == 0x3000

/-- Go's `strings.TrimSpace`: the text without leading and trailing white
space. -/
def TrimSpace (s : String) : String :=
  String.mk ((s.data.dropWhile isSpace).reverse.dropWhile isSpace).reverse

/-- Go's `strconv.Atoi` on a platform with 64-bit `int`: an optional sign and
one or more decimal digits, in the range of `int`; `none` stands for a non-nil
error. -/
def Atoi (s : String) : Option Int :=
  match s.data with
  | [] => none
  | c :: cs =>
    let neg := c == '-'
    let ds := if c == '-' || c == '+' then cs else c :: cs
    if ds.isEmpty then none
    else if !ds.all isDigit then none
    else
      let n : Nat := ds.foldl (fun a d => a * 10 + (d.toNat - 48)) 0
      if neg then
        if n > 2 ^ 63 then none else some (-(n : Int))
      else
        if n ≥ 2 ^ 63 then none else some (n : Int)

/-- Wrap-around of a 64-bit signed integer (`time.Duration` is an `int64`). -/
def wrapInt64 (x : Int) : Int :=
  (x + 2 ^ 63) % 2 ^ 64 - 2 ^ 63

/-- Go's `time.Second` in nanoseconds. -/
def Second : Int := 1000000000

/-- Go's `time.Minute` in nanoseconds. -/
def Minute : Int := 60 * Second

/-! ## The remote services -/

/-- A Go `error` value, represented by its message. -/
abbrev Error := String

/-- The fields of `cloudflare.DNSRecord` that the program reads or writes.
The Go field `Type` is named `RType` here, `Type` being a keyword. -/
structure DNSRecord where
  ID : String
  RType : String
  Name : String
  Content : String
deriving DecidableEq, Repr

/-- The part of `cloudflare.DNSRecordResponse` that the program reads:
`Response.Success` and `Response.Errors`. -/
structure DNSRecordResponse where
  Success : Bool
  Errors : List String
deriving DecidableEq, Repr

/-- What one GET to the echo endpoint gives: an error of `client.Get`, an
error of `ioutil.ReadAll`, or the body. -/
inductive EchoReply where
  | getError (e : Error)
  | readError (e : Error)
  | body (b : String)
deriving DecidableEq, Repr

/-- The answers of the remote services during one tick.  `get4 n` and
`get6 n` answer the GET number `n` (from 0) of the tick over the IPv4-only and
the IPv6-only transport.  The provider answers as a function of the request;
a request carries the record type, so the answers to the A requests and to
the AAAA requests are separate parts of the functions.  For `New` and
`UpdateDNSRecord`, `none` is the nil error. -/
structure World where
  New : String → String → Option Error
  ZoneIDByName : String → Except Error String
  get4 : Nat → EchoReply
  get6 : Nat → EchoReply
  DNSRecords : String → DNSRecord → Except Error (List DNSRecord)
  CreateDNSRecord : String → DNSRecord → Except Error DNSRecordResponse
  UpdateDNSRecord : String → String → DNSRecord → Option Error

/-- The observable steps of the program: the remote calls with their
arguments, the summary line at the end of a tick (with the two success flags
that select its text) and the sleep between ticks (nanoseconds). -/
inductive Event where
  | newClient (key email : String)
  | zoneIDByName (zoneName : String)
  | get4 (url : String)
  | get6 (url : String)
  | dnsRecords (zoneID : String) (record : DNSRecord)
  | createDNSRecord (zoneID : String) (record : DNSRecord)
  | updateDNSRecord (zoneID recordID : String) (record : DNSRecord)
  | summary (ipv4UpdateSuccess ipv6UpdateSuccess : Bool)
  | sleep (d : Int)
deriving DecidableEq, Repr

/-! ## Constants and initial values of the package variables -/

/-- The constant `aRecordString`. -/
def aRecordString : String := "A"

/-- The constant `aaaaRecordString`. -/
def aaaaRecordString : String := "AAAA"

/-- The constant `trueString`. -/
def trueString : String := "true"

/-- Initial value of the package variable `url4`. -/
def url4 : String := "http://icanhazip.com/"

/-- Initial value of the package variable `url6`. -/
def url6 : String := "http://icanhazip.com/"

/-- Initial value of the package variable `httpTimeout`: `time.Duration(5)`. -/
def httpTimeout : Int := 5

/-- Initial value of the package variable `updateInterval`:
`time.Duration(5) * time.Minute`. -/
def updateInterval : Int := wrapInt64 (5 * Minute)

/-- The default of `IPV4_QUERY_URL` and of `IPV6_QUERY_URL` that the text of
`printUsage` documents. -/
def usageDefaultURL : String := "http://canihazip.com/"

/-! ## The HTTP client -/

/-- The network that the function `dialTCP6` dials. -/
def dialTCP6 : String := "tcp6"

/-- The network that the function `dialTCP4` dials. -/
def dialTCP4 : String := "tcp"

/-- The part of `http.Client` that `createHTTPClient` sets: the network its
transport dials and the timeout of a request in nanoseconds. -/
structure HTTPClient where
  Dial : String
  Timeout : Int
deriving DecidableEq, Repr

/-- The function `createHTTPClient`, with the package variable `httpTimeout`
as a parameter.  The answers of the endpoint that the client reaches are the
oracles `get4` and `get6` of `World`. -/
def createHTTPClient (dialfunc : String) (httpTimeout : Int) : HTTPClient :=
  { Dial := dialfunc, Timeout := wrapInt64 (httpTimeout * Second) }

/-! ## The address resolvers -/

/-- The function `getIPV6Address`.  `echo n` answers the GET number `n` from
now on.  Returns the result and the GET requests issued. -/
def getIPV6Address (echo : Nat → EchoReply) (url : String) (trycount : Int) :
    Except Error IP × List Event :=
  match echo 0 with
  | .getError e => (.error e, [.get6 url])
  | .readError e => (.error e, [.get6 url])
  | .body b =>
    let ip := ParseIP (TrimSpace b)
    if To16 ip = [] then
      if trycount < 3 then
        let r := getIPV6Address (fun n => echo (n + 1)) url (trycount + 1)
        (r.1, .get6 url :: r.2)
      else (.error "Unable to get ipv6", [.get6 url])
    else (.ok ip, [.get6 url])
termination_by (3 - trycount).toNat
decreasing_by omega

/-- The function `getIPV4Address`. -/
def getIPV4Address (echo : Nat → EchoReply) (url : String) (trycount : Int) :
    Except Error IP × List Event :=
  match echo 0 with
  | .getError e => (.error e, [.get4 url])
  | .readError e => (.error e, [.get4 url])
  | .body b =>
    let ip := ParseIP (TrimSpace b)
    if To4 ip = [] then
      if trycount < 3 then
        let r := getIPV4Address (fun n => echo (n + 1)) url (trycount + 1)
        (r.1, .get4 url :: r.2)
      else (.error "Unable to get ipv4", [.get4 url])
    else (.ok ip, [.get4 url])
termination_by (3 - trycount).toNat
decreasing_by omega

/-! ## The provider calls -/

/-- The function `getRecordIfExists`. -/
def getRecordIfExists (w : World) (zoneID : String) (record : DNSRecord) :
    Except Error (List DNSRecord) × List Event :=
  match w.DNSRecords zoneID record with
  | .error err => (.error err, [.dnsRecords zoneID record])
  | .ok foundRecords => (.ok foundRecords, [.dnsRecords zoneID record])

/-- The function `getARecordIfExists`. -/
def getARecordIfExists (w : World) (zoneID : String) (record : DNSRecord) :
    Except Error (List DNSRecord) × List Event :=
  getRecordIfExists w zoneID { record with RType := aRecordString }

/-- The function `getAAAARecordIfExists`. -/
def getAAAARecordIfExists (w : World) (zoneID : String) (record : DNSRecord) :
    Except Error (List DNSRecord) × List Event :=
  getRecordIfExists w zoneID { record with RType := aaaaRecordString }

/-- The function `createRecord`. -/
def createRecord (w : World) (zoneID : String) (record : DNSRecord) :
    Bool × List Event :=
  match w.CreateDNSRecord zoneID record with
  | .error _ => (false, [.createDNSRecord zoneID record])
  | .ok response =>
    if response.Success then (true, [.createDNSRecord zoneID record])
    else (false, [.createDNSRecord zoneID record])

/-- The function `createARecord`. -/
def createARecord (w : World) (ip : IP) (zoneID : String) (record : DNSRecord) :
    Bool × List Event :=
  createRecord w zoneID { record with RType := aRecordString, Content := ipString ip }

/-- The function `createAAAARecord`. -/
def createAAAARecord (w : World) (ip : IP) (zoneID : String) (record : DNSRecord) :
    Bool × List Event :=
  createRecord w zoneID { record with RType := aaaaRecordString, Content := ipString ip }

/-- The function `updateRecord`; `none` is the nil error. -/
def updateRecord (w : World) (zoneID : String) (recordID : String) (record : DNSRecord) :
    Option Error × List Event :=
  (w.UpdateDNSRecord zoneID recordID record, [.updateDNSRecord zoneID recordID record])

/-- The function `updateARecord`. -/
def updateARecord (w : World) (ip : IP) (zoneID : String) (recordID : String)
    (record : DNSRecord) : Option Error × List Event :=
  updateRecord w zoneID recordID
    { record with RType := aRecordString, Content := ipString ip }

/-- The function `updateAAAARecord`. -/
def updateAAAARecord (w : World) (ip : IP) (zoneID : String) (recordID : String)
    (record : DNSRecord) : Option Error × List Event :=
  updateRecord w zoneID recordID
    { record with RType := aaaaRecordString, Content := ipString ip }

/-- The function `getZoneID`. -/
def getZoneID (w : World) (zoneName : String) : Except Error String × List Event :=
  (w.ZoneIDByName zoneName, [.zoneIDByName zoneName])

/-! ## The function `main` -/

/-- How the process ends before the loop is entered: `printUsage` (exit status
1) or a call of `logger.Fatal`, which logs and exits. -/
inductive Exit where
  | usage
  | fatalMissing (var : String)
  | fatalAtoi (var value : String)
deriving DecidableEq, Repr

/-- What the start of `main` computes before the loop: the two package
variables set from the environment and the record to look for. -/
structure Config where
  httpTimeout : Int
  updateInterval : Int
  dnsRecordToFind : DNSRecord
deriving DecidableEq, Repr

/-- The start of `main`, before the loop (lines 185 to 235).  `getenv` is
`os.Getenv`: the empty text for a variable that is not set. -/
def startup (getenv : String → String) : Except Exit Config :=
  if getenv "CLOUDFLARE_API_KEY" = "" then .error .usage
  else if getenv "CLOUDFLARE_EMAIL" = "" then .error (.fatalMissing "CLOUDFLARE_EMAIL")
  else if getenv "DNS_ZONE" = "" then .error (.fatalMissing "DNS_ZONE")
  else if getenv "SUBDOMAIN" = "" then .error (.fatalMissing "SUBDOMAIN")
  else
    let timeout : Option Int :=
      if getenv "HTTP_TIMEOUT" ≠ "" then Atoi (getenv "HTTP_TIMEOUT")
      else some httpTimeout
    match timeout with
    | none => .error (.fatalAtoi "HTTP_TIMEOUT" (getenv "HTTP_TIMEOUT"))
    | some t =>
      let interval : Option Int :=
        if getenv "UPDATE_INTERVAL" ≠ "" then
          (Atoi (getenv "UPDATE_INTERVAL")).map fun n => wrapInt64 (n * Minute)
        else some updateInterval
      match interval with
      | none => .error (.fatalAtoi "UPDATE_INTERVAL" (getenv "UPDATE_INTERVAL"))
      | some i =>
        .ok {
          httpTimeout := t
          updateInterval := i
          dnsRecordToFind :=
            { ID := "", RType := "", Content := "",
              Name := getenv "SUBDOMAIN" ++ "." ++ getenv "DNS_ZONE" } }

/-- The variables that live across ticks: whether `cloudflareAPIInstance` is
non-nil, the local `zoneID`, and the package variables `url4`, `url6` and
`updateOnce`. -/
structure State where
  cloudflareAPIInstance : Bool
  zoneID : String
  url4 : String
  url6 : String
  updateOnce : Bool
deriving DecidableEq, Repr

/-- The state when the loop is entered. -/
def initialState : State :=
  { cloudflareAPIInstance := false, zoneID := "", url4 := url4, url6 := url6,
    updateOnce := false }

/-- The A part of the loop body (lines 256 to 298).  Returns the remote calls,
the flag `ipv4UpdateSuccess` and the value of `url4` afterwards. -/
def updateA (getenv : String → String) (w : World) (zoneID : String)
    (dnsRecordToFind : DNSRecord) (url4 : String) : List Event × Bool × String :=
  if getenv "DONT_UPDATE_A" ≠ trueString then
    let url := if getenv "IPV4_QUERY_URL" ≠ "" then getenv "IPV4_QUERY_URL" else url4
    let r := getIPV4Address w.get4 url 0
    match r.1 with
    | .error _ => (r.2, false, url)
    | .ok ipv4 =>
      let q := getARecordIfExists w zoneID dnsRecordToFind
      match q.1 with
      | .error _ => (r.2 ++ q.2, false, url)
      | .ok aRecords =>
        match aRecords with
        | [] =>
          let c := createARecord w ipv4 zoneID dnsRecordToFind
          (r.2 ++ q.2 ++ c.2, c.1, url)
        | first :: _ =>
          if first.Content = ipString ipv4 then (r.2 ++ q.2, true, url)
          else
            let u := updateARecord w ipv4 zoneID first.ID dnsRecordToFind
            match u.1 with
            | some _ => (r.2 ++ q.2 ++ u.2, false, url)
            | none => (r.2 ++ q.2 ++ u.2, true, url)
  else ([], false, url4)

/-- The AAAA part of the loop body (lines 300 to 342).  Returns the remote
calls, the flag `ipv6UpdateSuccess` and the value of `url6` afterwards. -/
def updateAAAA (getenv : String → String) (w : World) (zoneID : String)
    (dnsRecordToFind : DNSRecord) (url6 : String) : List Event × Bool × String :=
  if getenv "DONT_UPDATE_AAAA" ≠ trueString then
    let url := if getenv "IPV6_QUERY_URL" ≠ "" then getenv "IPV6_QUERY_URL" else url6
    let r := getIPV6Address w.get6 url 0
    match r.1 with
    | .error _ => (r.2, false, url)
    | .ok ipv6 =>
      let q := getAAAARecordIfExists w zoneID dnsRecordToFind
      match q.1 with
      | .error _ => (r.2 ++ q.2, false, url)
      | .ok aaaaRecords =>
        match aaaaRecords with
        | [] =>
          let c := createAAAARecord w ipv6 zoneID dnsRecordToFind
          (r.2 ++ q.2 ++ c.2, c.1, url)
        | first :: _ =>
          if first.Content = ipString ipv6 then (r.2 ++ q.2, true, url)
          else
            let u := updateAAAARecord w ipv6 zoneID first.ID dnsRecordToFind
            match u.1 with
            | some _ => (r.2 ++ q.2 ++ u.2, false, url)
            | none => (r.2 ++ q.2 ++ u.2, true, url)
  else ([], false, url6)

/-- The part of the loop body after client and zone setup (lines 256 to 356),
run with the zone ID `zoneID`: both families, the summary line, then the
run-once check or the sleep.  Returns the events, the two success flags and
the state for the next round. -/
def tick (getenv : String → String) (cfg : Config) (w : World) (st : State)
    (zoneID : String) : List Event × (Bool × Bool) × State :=
  let a := updateA getenv w zoneID cfg.dnsRecordToFind st.url4
  let b := updateAAAA getenv w zoneID cfg.dnsRecordToFind st.url6
  let st1 : State :=
    { st with cloudflareAPIInstance := true, zoneID := zoneID,
              url4 := a.2.2, url6 := b.2.2 }
  if getenv "UPDATE_ONCE" = trueString then
    (a.1 ++ b.1 ++ [.summary a.2.1 b.2.1], (a.2.1, b.2.1),
      { st1 with updateOnce := true })
  else
    (a.1 ++ b.1 ++ [.summary a.2.1 b.2.1, .sleep cfg.updateInterval],
      (a.2.1, b.2.1), st1)

/-- One round of the loop body (lines 238 to 356).  `none` for the state means
that the round ended in `break`. -/
def loopBody (getenv : String → String) (cfg : Config) (w : World) (st : State) :
    List Event × Option State :=
  let client : List Event × Bool :=
    if st.cloudflareAPIInstance = false then
      let call := Event.newClient (getenv "CLOUDFLARE_API_KEY") (getenv "CLOUDFLARE_EMAIL")
      match w.New (getenv "CLOUDFLARE_API_KEY") (getenv "CLOUDFLARE_EMAIL") with
      | some _ => ([call], false)
      | none => ([call], true)
    else ([], true)
  if client.2 = false then (client.1, none)
  else
    let zone : List Event × Option String :=
      if st.zoneID = "" then
        let z := getZoneID w (getenv "DNS_ZONE")
        match z.1 with
        | .error _ => (z.2, none)
        | .ok id => (z.2, some id)
      else ([], some st.zoneID)
    match zone.2 with
    | none => (client.1 ++ zone.1, none)
    | some zoneID =>
      let t := tick getenv cfg w st zoneID
      (client.1 ++ zone.1 ++ t.1, some t.2.2)

/-- How a run of the loop stands: the loop condition became false, the loop
was left by `break`, or it is still running after the rounds looked at. -/
inductive LoopEnd where
  | finished
  | broke
  | running
deriving DecidableEq, Repr

/-- The loop `for updateOnce != true` of `main`, followed for at most `fuel`
tests of the loop condition.  `worlds n` holds the answers of the remote
services during round `n` from now on. -/
def mainLoop (getenv : String → String) (cfg : Config) :
    Nat → (Nat → World) → State → List Event × LoopEnd
  | 0, _, _ => ([], .running)
  | fuel + 1, worlds, st =>
    if st.updateOnce then ([], .finished)
    else
      let r := loopBody getenv cfg (worlds 0) st
      match r.2 with
      | none => (r.1, .broke)
      | some st1 =>
        let rest := mainLoop getenv cfg fuel (fun n => worlds (n + 1)) st1
        (r.1 ++ rest.1, rest.2)

/-- The function `main`: the start, then the loop.  The result is the list of
events and either the exit taken before the loop or the way the loop stands
after `fuel` tests of its condition. -/
def main (getenv : String → String) (worlds : Nat → World) (fuel : Nat) :
    List Event × Except Exit LoopEnd :=
  match startup getenv with
  | .error e => ([], .error e)
  | .ok cfg =>
    let r := mainLoop getenv cfg fuel worlds initialState
    (r.1, .ok r.2)

/-! ## Vocabulary of the statements -/

/-- The body is not parseable as an IP address. -/
def Unparseable (b : String) : Prop :=
  ParseIP (TrimSpace b) = []

/-- The body is the text of an IPv4 address (`To4` is not nil, Go's test for
the IPv4 family). -/
def ValidIPv4 (b : String) : Prop :=
  To4 (ParseIP (TrimSpace b)) ≠ []

/-- The body is the text of an IPv6 address: a 16-byte address that is not an
IPv4 address. -/
def ValidIPv6 (b : String) : Prop :=
  (ParseIP (TrimSpace b)).length = IPv6len ∧ To4 (ParseIP (TrimSpace b)) = []

/-- The retry policy of the specification, said of a run of a resolver that
met the answers `echo` and gave `res`; `call` is the GET request of the
resolver and `n` the number of attempts allowed.  Either some attempt
`k + 1 ≤ n` is the first whose answer is an error or a body `valid` accepts,
all earlier bodies being unparseable, and the run returns that error or that
address after exactly `k + 1` requests; or all `n` bodies are unparseable and
the run returns the error `exhausted` after exactly `n` requests. -/
def RetryPolicy (valid : String → Prop) (exhausted : Error) (call : Event)
    (n : Nat) (echo : Nat → EchoReply) (res : Except Error IP × List Event) : Prop :=
  (∃ k, k < n ∧ (∀ j, j < k → ∃ b, echo j = .body b ∧ Unparseable b) ∧
      ((∃ e, (echo k = .getError e ∨ echo k = .readError e) ∧
          res = (.error e, List.replicate (k + 1) call)) ∨
       (∃ b, echo k = .body b ∧ valid b ∧
          res = (.ok (ParseIP (TrimSpace b)), List.replicate (k + 1) call))))
  ∨ ((∀ j, j < n → ∃ b, echo j = .body b ∧ Unparseable b) ∧
      res = (.error exhausted, List.replicate n call))

/-- The two address families the program handles. -/
inductive Family where
  | A
  | AAAA
deriving DecidableEq, Repr

/-- The record type of the family. -/
def Family.recordType : Family → String
  | .A => aRecordString
  | .AAAA => aaaaRecordString

/-- The environment variable that opts the family out. -/
def Family.optOut : Family → String
  | .A => "DONT_UPDATE_A"
  | .AAAA => "DONT_UPDATE_AAAA"

/-- The URL the resolver of the family is called with in a tick that starts
in state `st`. -/
def Family.url (f : Family) (getenv : String → String) (st : State) : String :=
  match f with
  | .A => if getenv "IPV4_QUERY_URL" ≠ "" then getenv "IPV4_QUERY_URL" else st.url4
  | .AAAA => if getenv "IPV6_QUERY_URL" ≠ "" then getenv "IPV6_QUERY_URL" else st.url6

/-- The call of the family's resolver that a tick makes. -/
def Family.resolve (f : Family) (w : World) (url : String) : Except Error IP × List Event :=
  match f with
  | .A => getIPV4Address w.get4 url 0
  | .AAAA => getIPV6Address w.get6 url 0

/-- The success flag of the family among the two flags of a tick. -/
def Family.flag (f : Family) (flags : Bool × Bool) : Bool :=
  match f with
  | .A => flags.1
  | .AAAA => flags.2

/-- The remote calls of a family: its echo GET and the provider calls whose
record has the type of the family. -/
def Family.owns (f : Family) : Event → Bool
  | .get4 _ => f == .A
  | .get6 _ => f == .AAAA
  | .dnsRecords _ r => r.RType == f.recordType
  | .createDNSRecord _ r => r.RType == f.recordType
  | .updateDNSRecord _ _ r => r.RType == f.recordType
  | _ => false

/-- The event is a create or an update call. -/
def Event.isWrite : Event → Bool
  | .createDNSRecord _ _ => true
  | .updateDNSRecord _ _ _ => true
  | _ => false

/-- The event is a summary line. -/
def Event.isSummary : Event → Bool
  | .summary _ _ => true
  | _ => false

/-- The event is a sleep. -/
def Event.isSleep : Event → Bool
  | .sleep _ => true
  | _ => false

/-- The write calls (create and update) of the family in a list of events. -/
def Family.writes (f : Family) (events : List Event) : List Event :=
  events.filter fun e => f.owns e && e.isWrite

/-- The remote calls of the family in a list of events. -/
def Family.calls (f : Family) (events : List Event) : List Event :=
  events.filter f.owns

/-- Two worlds give the same answers to every remote call of the family. -/
def Family.Agree (f : Family) (w1 w2 : World) : Prop :=
  (match f with
    | .A => w1.get4 = w2.get4
    | .AAAA => w1.get6 = w2.get6) ∧
  (∀ z r, r.RType = f.recordType → w1.DNSRecords z r = w2.DNSRecords z r) ∧
  (∀ z r, r.RType = f.recordType → w1.CreateDNSRecord z r = w2.CreateDNSRecord z r) ∧
  (∀ z i r, r.RType = f.recordType → w1.UpdateDNSRecord z i r = w2.UpdateDNSRecord z i r)

/-- Every summary line of the list is directly followed by a sleep of `d`
nanoseconds. -/
def SleepsAfterEverySummary (d : Int) : List Event → Prop
  | [] => True
  | .summary _ _ :: rest =>
    (∃ tail, rest = .sleep d :: tail) ∧ SleepsAfterEverySummary d rest
  | _ :: rest => SleepsAfterEverySummary d rest

/-- The text is a decimal integer: an optional sign and one or more decimal
digits. -/
def IsDecimalInteger (s : String) : Prop :=
  match s.data with
  | [] => False
  | c :: cs =>
    if c = '-' ∨ c = '+' then cs ≠ [] ∧ ∀ d ∈ cs, isDigit d = true
    else ∀ d ∈ c :: cs, isDigit d = true


/-! ## Concrete inputs -/

/-- An echo endpoint that answers every GET with the IPv4 text `8.8.8.8`. -/
def echoIPv4Text : Nat → EchoReply :=
  fun _ => .body "8.8.8.8\n"

/-- An echo endpoint that answers every GET with the IPv6 text
`2606:4700::1`. -/
def echoIPv6Text : Nat → EchoReply :=
  fun _ => .body "2606:4700::1\n"

/-- An echo endpoint that answers two GETs with text that is no address and
every later one with `8.8.8.8`. -/
def echoThirdTry : Nat → EchoReply :=
  fun n => if n < 2 then .body "busy" else .body "8.8.8.8\n"

/-- An echo endpoint that never answers with an address. -/
def echoNoAddress : Nat → EchoReply :=
  fun _ => .body "<html></html>"

/-- An environment with the four required variables and nothing else. -/
def envExample : String → String := fun k =>
  if k = "CLOUDFLARE_API_KEY" then "secret"
  else if k = "CLOUDFLARE_EMAIL" then "admin@example.com"
  else if k = "DNS_ZONE" then "example.com"
  else if k = "SUBDOMAIN" then "home"
  else ""

/-- What `startup` computes from `envExample`. -/
def cfgExample : Config :=
  { httpTimeout := 5
    updateInterval := 300000000000
    dnsRecordToFind := { ID := "", RType := "", Name := "home.example.com", Content := "" } }

/-- A world of the scenarios of the specification.  The IPv4 echo answers
`8.8.8.8` and no A record exists; the IPv6 echo answers `2606:4700::1` and the
AAAA record `rec6` holds `2606:4700::2`.  Every provider call succeeds. -/
def worldExample : World :=
  { New := fun _ _ => none
    ZoneIDByName := fun _ => .ok "zone1"
    get4 := echoIPv4Text
    get6 := echoIPv6Text
    DNSRecords := fun _ r =>
      if r.RType = "A" then .ok []
      else .ok [{ ID := "rec6", RType := "AAAA", Name := r.Name, Content := "2606:4700::2" }]
    CreateDNSRecord := fun _ _ => .ok { Success := true, Errors := [] }
    UpdateDNSRecord := fun _ _ _ => none }

/-- A world in which both records already hold the addresses that the echo
endpoint answers: `1.1.1.1` and `2606:4700::1`. -/
def worldUnchanged : World :=
  { New := fun _ _ => none
    ZoneIDByName := fun _ => .ok "zone1"
    get4 := fun _ => .body "1.1.1.1\n"
    get6 := echoIPv6Text
    DNSRecords := fun _ r =>
      if r.RType = "A" then
        .ok [{ ID := "rec4", RType := "A", Name := r.Name, Content := "1.1.1.1" }]
      else .ok [{ ID := "rec6", RType := "AAAA", Name := r.Name, Content := "2606:4700::1" }]
    CreateDNSRecord := fun _ _ => .ok { Success := true, Errors := [] }
    UpdateDNSRecord := fun _ _ _ => none }

/-- The world `worldExample` with every remote call of the A family failing. -/
def worldAFails : World :=
  { worldExample with
    get4 := fun _ => .getError "dial tcp: network is unreachable"
    DNSRecords := fun z r =>
      if r.RType = "A" then .error "HTTP status 500" else worldExample.DNSRecords z r
    CreateDNSRecord := fun z r =>
      if r.RType = "A" then .error "HTTP status 500" else worldExample.CreateDNSRecord z r
    UpdateDNSRecord := fun z i r =>
      if r.RType = "A" then some "HTTP status 500" else worldExample.UpdateDNSRecord z i r }

/-- The world `worldExample` with the zone lookup failing. -/
def worldZoneFails : World :=
  { worldExample with ZoneIDByName := fun _ => .error "Zone could not be found" }

/-- The environment `envExample` with `UPDATE_ONCE` set to `true`. -/
def envOnce : String → String := fun k =>
  if k = "UPDATE_ONCE" then "true" else envExample k

/-- The environment `envExample` with `HTTP_TIMEOUT` set to `abc`. -/
def envBadTimeout : String → String := fun k =>
  if k = "HTTP_TIMEOUT" then "abc" else envExample k

/-! ## The address resolvers -/

theorem To4_nil : To4 [] = [] := by decide

theorem To16_nil : To16 [] = [] := by decide

theorem To16_ne_nil_of_length (ip : IP) (h : ip.length = IPv6len) : To16 ip ≠ [] := by
  intro h0
  have h1 : To16 ip = ip := by
    unfold To16
    simp [h, IPv4len, IPv6len]
  rw [h1] at h0
  subst h0
  simp [IPv6len] at h

/-- The retry policy for `getIPV4Address` called with `n + 1` attempts left,
that is with `trycount = 3 - n`. -/
theorem getIPV4Address_policy (n : Nat) :
    ∀ (echo : Nat → EchoReply) (url : String) (t : Int), t = 3 - (n : Int) →
      (∀ i, i < n + 1 → ∀ b, echo i = .body b → Unparseable b ∨ ValidIPv4 b) →
      RetryPolicy ValidIPv4 "Unable to get ipv4" (.get4 url) (n + 1) echo
        (getIPV4Address echo url t) := by
  induction n with
  | zero =>
    intro echo url t ht H
    rw [getIPV4Address]
    cases h0 : echo 0 with
    | getError e =>
      left; exact ⟨0, by omega, by intro j hj; omega, Or.inl ⟨e, Or.inl h0, by simp⟩⟩
    | readError e =>
      left; exact ⟨0, by omega, by intro j hj; omega, Or.inl ⟨e, Or.inr h0, by simp⟩⟩
    | body b =>
      rcases H 0 (by omega) b h0 with hu | hv
      · right
        have h4 : To4 (ParseIP (TrimSpace b)) = [] := by rw [hu]; exact To4_nil
        have ht3 : ¬ t < 3 := by omega
        refine ⟨?_, by simp [h4, ht3]⟩
        intro j hj
        have : j = 0 := by omega
        subst this
        exact ⟨b, h0, hu⟩
      · left
        refine ⟨0, by omega, by intro j hj; omega, Or.inr ⟨b, h0, hv, ?_⟩⟩
        have hv1 : To4 (ParseIP (TrimSpace b)) ≠ [] := hv
        simp [hv1]
  | succ n ih =>
    intro echo url t ht H
    rw [getIPV4Address]
    cases h0 : echo 0 with
    | getError e =>
      left; exact ⟨0, by omega, by intro j hj; omega, Or.inl ⟨e, Or.inl h0, by simp⟩⟩
    | readError e =>
      left; exact ⟨0, by omega, by intro j hj; omega, Or.inl ⟨e, Or.inr h0, by simp⟩⟩
    | body b =>
      rcases H 0 (by omega) b h0 with hu | hv
      · have h4 : To4 (ParseIP (TrimSpace b)) = [] := by rw [hu]; exact To4_nil
        have ht3 : t < 3 := by omega
        have IH := ih (fun i => echo (i + 1)) url (t + 1) (by push_cast at ht ⊢; omega)
          (fun i hi b hb => H (i + 1) (by omega) b hb)
        simp only [h4, ht3, if_true]
        rcases IH with ⟨k, hk, hpre, hstop⟩ | ⟨hall, hres⟩
        · left
          refine ⟨k + 1, by omega, ?_, ?_⟩
          · intro j hj
            cases j with
            | zero => exact ⟨b, h0, hu⟩
            | succ j => exact hpre j (by omega)
          · rcases hstop with ⟨e, he, hr⟩ | ⟨b1, hb1, hv1, hr⟩
            · left; exact ⟨e, he, by rw [hr]; simp [List.replicate_succ]⟩
            · right; exact ⟨b1, hb1, hv1, by rw [hr]; simp [List.replicate_succ]⟩
        · right
          refine ⟨?_, by rw [hres]; simp [List.replicate_succ]⟩
          intro j hj
          cases j with
          | zero => exact ⟨b, h0, hu⟩
          | succ j => exact hall j (by omega)
      · left
        refine ⟨0, by omega, by intro j hj; omega, Or.inr ⟨b, h0, hv, ?_⟩⟩
        have hv1 : To4 (ParseIP (TrimSpace b)) ≠ [] := hv
        simp [hv1]

/-- The retry policy for `getIPV6Address` called with `n + 1` attempts left,
that is with `trycount = 3 - n`. -/
theorem getIPV6Address_policy (n : Nat) :
    ∀ (echo : Nat → EchoReply) (url : String) (t : Int), t = 3 - (n : Int) →
      (∀ i, i < n + 1 → ∀ b, echo i = .body b → Unparseable b ∨ ValidIPv6 b) →
      RetryPolicy ValidIPv6 "Unable to get ipv6" (.get6 url) (n + 1) echo
        (getIPV6Address echo url t) := by
  induction n with
  | zero =>
    intro echo url t ht H
    rw [getIPV6Address]
    cases h0 : echo 0 with
    | getError e =>
      left; exact ⟨0, by omega, by intro j hj; omega, Or.inl ⟨e, Or.inl h0, by simp⟩⟩
    | readError e =>
      left; exact ⟨0, by omega, by intro j hj; omega, Or.inl ⟨e, Or.inr h0, by simp⟩⟩
    | body b =>
      rcases H 0 (by omega) b h0 with hu | hv
      · right
        have h6 : To16 (ParseIP (TrimSpace b)) = [] := by rw [hu]; exact To16_nil
        have ht3 : ¬ t < 3 := by omega
        refine ⟨?_, by simp [h6, ht3]⟩
        intro j hj
        have : j = 0 := by omega
        subst this
        exact ⟨b, h0, hu⟩
      · left
        refine ⟨0, by omega, by intro j hj; omega, Or.inr ⟨b, h0, hv, ?_⟩⟩
        have hv1 : To16 (ParseIP (TrimSpace b)) ≠ [] := To16_ne_nil_of_length _ hv.1
        simp [hv1]
  | succ n ih =>
    intro echo url t ht H
    rw [getIPV6Address]
    cases h0 : echo 0 with
    | getError e =>
      left; exact ⟨0, by omega, by intro j hj; omega, Or.inl ⟨e, Or.inl h0, by simp⟩⟩
    | readError e =>
      left; exact ⟨0, by omega, by intro j hj; omega, Or.inl ⟨e, Or.inr h0, by simp⟩⟩
    | body b =>
      rcases H 0 (by omega) b h0 with hu | hv
      · have h6 : To16 (ParseIP (TrimSpace b)) = [] := by rw [hu]; exact To16_nil
        have ht3 : t < 3 := by omega
        have IH := ih (fun i => echo (i + 1)) url (t + 1) (by push_cast at ht ⊢; omega)
          (fun i hi b hb => H (i + 1) (by omega) b hb)
        simp only [h6, ht3, if_true]
        rcases IH with ⟨k, hk, hpre, hstop⟩ | ⟨hall, hres⟩
        · left
          refine ⟨k + 1, by omega, ?_, ?_⟩
          · intro j hj
            cases j with
            | zero => exact ⟨b, h0, hu⟩
            | succ j => exact hpre j (by omega)
          · rcases hstop with ⟨e, he, hr⟩ | ⟨b1, hb1, hv1, hr⟩
            · left; exact ⟨e, he, by rw [hr]; simp [List.replicate_succ]⟩
            · right; exact ⟨b1, hb1, hv1, by rw [hr]; simp [List.replicate_succ]⟩
        · right
          refine ⟨?_, by rw [hres]; simp [List.replicate_succ]⟩
          intro j hj
          cases j with
          | zero => exact ⟨b, h0, hu⟩
          | succ j => exact hall j (by omega)
      · left
        refine ⟨0, by omega, by intro j hj; omega, Or.inr ⟨b, h0, hv, ?_⟩⟩
        have hv1 : To16 (ParseIP (TrimSpace b)) ≠ [] := To16_ne_nil_of_length _ hv.1
        simp [hv1]

/-- C1, the code at the failing input.  The IPv6 resolver, answered with the
IPv4 text `8.8.8.8`, returns that IPv4 address as its result after a single
request: it neither rejects the body nor retries.  The body is a valid IPv4
address and no IPv6 address. -/
theorem getIPV6Address_returns_ipv4_address :
    getIPV6Address echoIPv4Text url6 0 = (.ok (IPv4 8 8 8 8), [.get6 url6]) ∧
    ValidIPv4 "8.8.8.8\n" ∧ ¬ ValidIPv6 "8.8.8.8\n" := by
  have hp : ParseIP (TrimSpace "8.8.8.8\n") = IPv4 8 8 8 8 := by decide
  have h16 : To16 (IPv4 8 8 8 8) ≠ [] := by decide
  refine ⟨?_, ?_, ?_⟩
  · rw [getIPV6Address]
    simp [echoIPv4Text, hp, h16]
  · show To4 (ParseIP (TrimSpace "8.8.8.8\n")) ≠ []
    decide
  · intro h
    have h4 : To4 (ParseIP (TrimSpace "8.8.8.8\n")) = [] := h.2
    revert h4
    decide

/-- The sibling path does what the IPv6 resolver misses: the IPv4 resolver,
answered with the IPv6 text `2606:4700::1`, rejects the body on each of its
four attempts and fails. -/
theorem getIPV4Address_rejects_ipv6_address :
    getIPV4Address echoIPv6Text url4 0 =
      (.error "Unable to get ipv4", List.replicate 4 (.get4 url4)) := by
  have h4 : To4 (ParseIP (TrimSpace "2606:4700::1\n")) = [] := by decide
  simp [getIPV4Address, echoIPv6Text, h4, List.replicate]

/-- The IPv4 resolver validates the family: an address it returns is the
parse of a body it was answered with, and that body is a valid IPv4
address. -/
theorem getIPV4Address_ok_valid (echo : Nat → EchoReply) (url : String) (t : Int) :
    ∀ ip, (getIPV4Address echo url t).1 = .ok ip →
      ∃ i b, echo i = .body b ∧ ValidIPv4 b ∧ ip = ParseIP (TrimSpace b) := by
  induction echo, url, t using getIPV4Address.induct with
  | case1 echo url t e h0 =>
    intro ip h
    rw [getIPV4Address] at h
    simp [h0] at h
  | case2 echo url t e h0 =>
    intro ip h
    rw [getIPV4Address] at h
    simp [h0] at h
  | case3 echo url t b h0 ip0 h4 ht ih =>
    intro ip h
    rw [getIPV4Address] at h
    have h41 : To4 (ParseIP (TrimSpace b)) = [] := h4
    simp only [h0, h41, ht, if_true] at h
    obtain ⟨i, b1, hb1, hv, hip⟩ := ih ip h
    exact ⟨i + 1, b1, hb1, hv, hip⟩
  | case4 echo url t b h0 ip0 h4 ht =>
    intro ip h
    rw [getIPV4Address] at h
    have h41 : To4 (ParseIP (TrimSpace b)) = [] := h4
    simp [h0, h41, ht] at h
  | case5 echo url t b h0 ip0 h4 =>
    intro ip h
    rw [getIPV4Address] at h
    have h41 : ¬ To4 (ParseIP (TrimSpace b)) = [] := h4
    simp only [h0, h41, if_false] at h
    injection h with h
    exact ⟨0, b, h0, h41, h.symm⟩

/-- C2.  Each resolver, called with attempt counter 0 and answered by a
sequence in which every body is unparseable or a valid address of its family,
follows the retry policy with four attempts: it stops at the first answer
that is an error (returning it) or an accepted body (returning the address),
after exactly as many requests as answers were looked at, and fails after
exactly four requests when all four bodies are unparseable. -/
theorem resolver_retry_policy (echo4 echo6 : Nat → EchoReply) (url : String)
    (h4 : ∀ i, i < 4 → ∀ b, echo4 i = .body b → Unparseable b ∨ ValidIPv4 b)
    (h6 : ∀ i, i < 4 → ∀ b, echo6 i = .body b → Unparseable b ∨ ValidIPv6 b) :
    RetryPolicy ValidIPv4 "Unable to get ipv4" (.get4 url) 4 echo4
        (getIPV4Address echo4 url 0) ∧
    RetryPolicy ValidIPv6 "Unable to get ipv6" (.get6 url) 4 echo6
        (getIPV6Address echo6 url 0) :=
  ⟨getIPV4Address_policy 3 echo4 url 0 (by norm_num) h4,
   getIPV6Address_policy 3 echo6 url 0 (by norm_num) h6⟩

/-- C2 at a concrete input: two bodies that are no address and then
`8.8.8.8` for the IPv4 resolver, no address at all for the IPv6 resolver. -/
theorem resolver_retry_policy_witness :
    (∀ i, i < 4 → ∀ b, echoThirdTry i = .body b → Unparseable b ∨ ValidIPv4 b) ∧
    (∀ i, i < 4 → ∀ b, echoNoAddress i = .body b → Unparseable b ∨ ValidIPv6 b) ∧
    RetryPolicy ValidIPv4 "Unable to get ipv4" (.get4 url4) 4 echoThirdTry
        (getIPV4Address echoThirdTry url4 0) ∧
    RetryPolicy ValidIPv6 "Unable to get ipv6" (.get6 url4) 4 echoNoAddress
        (getIPV6Address echoNoAddress url4 0) := by
  have h4 : ∀ i, i < 4 → ∀ b, echoThirdTry i = .body b → Unparseable b ∨ ValidIPv4 b := by
    intro i _ b hb
    unfold echoThirdTry at hb
    split at hb
    · injection hb with hb
      subst hb
      left
      show ParseIP (TrimSpace "busy") = []
      decide
    · injection hb with hb
      subst hb
      right
      show To4 (ParseIP (TrimSpace "8.8.8.8\n")) ≠ []
      decide
  have h6 : ∀ i, i < 4 → ∀ b, echoNoAddress i = .body b → Unparseable b ∨ ValidIPv6 b := by
    intro i _ b hb
    unfold echoNoAddress at hb
    injection hb with hb
    subst hb
    left
    show ParseIP (TrimSpace "<html></html>") = []
    decide
  exact ⟨h4, h6, resolver_retry_policy echoThirdTry echoNoAddress url4 h4 h6⟩

/-- The runs of the resolvers against the endpoints `echoThirdTry` and
`echoNoAddress`, evaluated: success on the third request, and failure after
four requests. -/
theorem resolver_runs_evaluated :
    getIPV4Address echoThirdTry url4 0 =
      (.ok (IPv4 8 8 8 8), List.replicate 3 (.get4 url4)) ∧
    getIPV6Address echoNoAddress url6 0 =
      (.error "Unable to get ipv6", List.replicate 4 (.get6 url6)) := by
  have hb : To4 (ParseIP (TrimSpace "busy")) = [] := by decide
  have hp : ParseIP (TrimSpace "8.8.8.8\n") = IPv4 8 8 8 8 := by decide
  have h4 : To4 (IPv4 8 8 8 8) ≠ [] := by decide
  have hn : To16 (ParseIP (TrimSpace "<html></html>")) = [] := by decide
  constructor
  · simp [getIPV4Address, echoThirdTry, hb, hp, h4, List.replicate]
  · simp [getIPV6Address, echoNoAddress, hn, List.replicate]

/-- A group of more than four hexadecimal digits is no address.  The bodies
`00001::1` and `0:0:0:0:0:0ffff:1.2.3.4` are unparseable, and a resolver that
is answered with such a body on every attempt makes four requests and
fails. -/
theorem resolvers_reject_long_groups :
    Unparseable "00001::1" ∧ Unparseable "0:0:0:0:0:0ffff:1.2.3.4" ∧
    getIPV6Address (fun _ => .body "00001::1") url6 0 =
      (.error "Unable to get ipv6", List.replicate 4 (.get6 url6)) ∧
    getIPV4Address (fun _ => .body "0:0:0:0:0:0ffff:1.2.3.4") url4 0 =
      (.error "Unable to get ipv4", List.replicate 4 (.get4 url4)) := by
  have h6 : ParseIP (TrimSpace "00001::1") = [] := by decide
  have h4 : ParseIP (TrimSpace "0:0:0:0:0:0ffff:1.2.3.4") = [] := by decide
  refine ⟨h6, h4, ?_, ?_⟩
  · simp [getIPV6Address, h6, To16_nil, List.replicate]
  · simp [getIPV4Address, h4, To4_nil, List.replicate]

/-! ## The remote calls of a tick -/

theorem getIPV4Address_events (echo : Nat → EchoReply) (url : String) (t : Int) :
    ∀ e ∈ (getIPV4Address echo url t).2, e = .get4 url := by
  induction echo, url, t using getIPV4Address.induct with
  | case1 echo url t e h0 => rw [getIPV4Address]; simp [h0]
  | case2 echo url t e h0 => rw [getIPV4Address]; simp [h0]
  | case3 echo url t b h0 ip h4 ht ih =>
    rw [getIPV4Address]
    have h4' : To4 (ParseIP (TrimSpace b)) = [] := h4
    simp only [h0, h4', ht, if_true]
    intro e he
    rcases List.mem_cons.mp he with h | h
    · exact h
    · exact ih e h
  | case4 echo url t b h0 ip h4 ht =>
    rw [getIPV4Address]
    have h4' : To4 (ParseIP (TrimSpace b)) = [] := h4
    simp [h0, h4', ht]
  | case5 echo url t b h0 ip h4 =>
    rw [getIPV4Address]
    have h4' : ¬ To4 (ParseIP (TrimSpace b)) = [] := h4
    simp [h0, h4']

theorem getIPV4Address_events_ne_nil (echo : Nat → EchoReply) (url : String) (t : Int) :
    (getIPV4Address echo url t).2 ≠ [] := by
  rw [getIPV4Address]
  cases echo 0 with
  | getError e => simp
  | readError e => simp
  | body b =>
    simp only
    split
    · split <;> simp
    · simp


theorem getIPV6Address_events (echo : Nat → EchoReply) (url : String) (t : Int) :
    ∀ e ∈ (getIPV6Address echo url t).2, e = .get6 url := by
  induction echo, url, t using getIPV6Address.induct with
  | case1 echo url t e h0 => rw [getIPV6Address]; simp [h0]
  | case2 echo url t e h0 => rw [getIPV6Address]; simp [h0]
  | case3 echo url t b h0 ip h4 ht ih =>
    rw [getIPV6Address]
    have h4' : To16 (ParseIP (TrimSpace b)) = [] := h4
    simp only [h0, h4', ht, if_true]
    intro e he
    rcases List.mem_cons.mp he with h | h
    · exact h
    · exact ih e h
  | case4 echo url t b h0 ip h4 ht =>
    rw [getIPV6Address]
    have h4' : To16 (ParseIP (TrimSpace b)) = [] := h4
    simp [h0, h4', ht]
  | case5 echo url t b h0 ip h4 =>
    rw [getIPV6Address]
    have h4' : ¬ To16 (ParseIP (TrimSpace b)) = [] := h4
    simp [h0, h4']

theorem getIPV6Address_events_ne_nil (echo : Nat → EchoReply) (url : String) (t : Int) :
    (getIPV6Address echo url t).2 ≠ [] := by
  rw [getIPV6Address]
  cases echo 0 with
  | getError e => simp
  | readError e => simp
  | body b =>
    simp only
    split
    · split <;> simp
    · simp


theorem recordType_ne : (aRecordString == aaaaRecordString) = false := by decide
theorem recordType_ne2 : (aaaaRecordString == aRecordString) = false := by decide

theorem updateA_owned (getenv : String → String) (w : World) (zoneID : String)
    (record : DNSRecord) (u : String) :
    ∀ e ∈ (updateA getenv w zoneID record u).1,
      Family.A.owns e = true ∧ Family.AAAA.owns e = false := by
  have hget : ∀ url e, e ∈ (getIPV4Address w.get4 url 0).2 →
      Family.A.owns e = true ∧ Family.AAAA.owns e = false := by
    intro url e he
    rw [getIPV4Address_events _ _ _ e he]
    simp [Family.owns]
  intro e he
  unfold updateA at he
  simp only [getARecordIfExists, getRecordIfExists, createARecord, createRecord,
    updateARecord, updateRecord] at he
  repeat' split at he
  all_goals simp only [List.mem_append, List.mem_singleton, List.not_mem_nil] at he
  all_goals try casesm* _ ∨ _
  all_goals first
    | exact hget _ _ (by assumption)
    | (subst_vars; simp [Family.owns, Family.recordType, recordType_ne])

theorem updateAAAA_owned (getenv : String → String) (w : World) (zoneID : String)
    (record : DNSRecord) (u : String) :
    ∀ e ∈ (updateAAAA getenv w zoneID record u).1,
      Family.AAAA.owns e = true ∧ Family.A.owns e = false := by
  have hget : ∀ url e, e ∈ (getIPV6Address w.get6 url 0).2 →
      Family.AAAA.owns e = true ∧ Family.A.owns e = false := by
    intro url e he
    rw [getIPV6Address_events _ _ _ e he]
    simp [Family.owns]
  intro e he
  unfold updateAAAA at he
  simp only [getAAAARecordIfExists, getRecordIfExists, createAAAARecord, createRecord,
    updateAAAARecord, updateRecord] at he
  repeat' split at he
  all_goals simp only [List.mem_append, List.mem_singleton, List.not_mem_nil] at he
  all_goals try casesm* _ ∨ _
  all_goals first
    | exact hget _ _ (by assumption)
    | (subst_vars; simp [Family.owns, Family.recordType, recordType_ne2])


theorem getIPV4Address_no_write (echo : Nat → EchoReply) (url : String) (t : Int) :
    (getIPV4Address echo url t).2.filter Event.isWrite = [] := by
  rw [List.filter_eq_nil_iff]
  intro e he
  rw [getIPV4Address_events _ _ _ e he]
  simp [Event.isWrite]

theorem getIPV6Address_no_write (echo : Nat → EchoReply) (url : String) (t : Int) :
    (getIPV6Address echo url t).2.filter Event.isWrite = [] := by
  rw [List.filter_eq_nil_iff]
  intro e he
  rw [getIPV6Address_events _ _ _ e he]
  simp [Event.isWrite]

theorem tick_flags (getenv : String → String) (cfg : Config) (w : World) (st : State)
    (zoneID : String) :
    (tick getenv cfg w st zoneID).2.1 =
      ((updateA getenv w zoneID cfg.dnsRecordToFind st.url4).2.1,
       (updateAAAA getenv w zoneID cfg.dnsRecordToFind st.url6).2.1) := by
  unfold tick
  split <;> rfl

theorem tick_calls_A (getenv : String → String) (cfg : Config) (w : World) (st : State)
    (zoneID : String) :
    Family.A.calls (tick getenv cfg w st zoneID).1 =
      (updateA getenv w zoneID cfg.dnsRecordToFind st.url4).1 := by
  have ha : (updateA getenv w zoneID cfg.dnsRecordToFind st.url4).1.filter Family.A.owns
      = (updateA getenv w zoneID cfg.dnsRecordToFind st.url4).1 :=
    List.filter_eq_self.mpr fun e he => (updateA_owned _ _ _ _ _ e he).1
  have hb : (updateAAAA getenv w zoneID cfg.dnsRecordToFind st.url6).1.filter Family.A.owns
      = [] :=
    List.filter_eq_nil_iff.mpr fun e he => by simp [(updateAAAA_owned _ _ _ _ _ e he).2]
  unfold tick Family.calls
  split <;> simp [List.filter_append, ha, hb, Family.owns]

theorem tick_calls_AAAA (getenv : String → String) (cfg : Config) (w : World) (st : State)
    (zoneID : String) :
    Family.AAAA.calls (tick getenv cfg w st zoneID).1 =
      (updateAAAA getenv w zoneID cfg.dnsRecordToFind st.url6).1 := by
  have ha : (updateA getenv w zoneID cfg.dnsRecordToFind st.url4).1.filter Family.AAAA.owns
      = [] :=
    List.filter_eq_nil_iff.mpr fun e he => by simp [(updateA_owned _ _ _ _ _ e he).2]
  have hb : (updateAAAA getenv w zoneID cfg.dnsRecordToFind st.url6).1.filter Family.AAAA.owns
      = (updateAAAA getenv w zoneID cfg.dnsRecordToFind st.url6).1 :=
    List.filter_eq_self.mpr fun e he => (updateAAAA_owned _ _ _ _ _ e he).1
  unfold tick Family.calls
  split <;> simp [List.filter_append, ha, hb, Family.owns]

theorem writes_eq (f : Family) (l : List Event) :
    f.writes l = (f.calls l).filter Event.isWrite := by
  unfold Family.writes Family.calls
  rw [List.filter_filter]
  congr 1
  funext e
  exact Bool.and_comm _ _


theorem startup_dnsRecordToFind (getenv : String → String) (cfg : Config)
    (h : startup getenv = .ok cfg) :
    cfg.dnsRecordToFind =
      { ID := "", RType := "", Content := "",
        Name := getenv "SUBDOMAIN" ++ "." ++ getenv "DNS_ZONE" } := by
  simp only [startup] at h
  repeat' split at h
  all_goals first
    | (injection h with h; subst h; rfl)
    | (exact absurd h (by simp))

/-- The A part of a tick when the record exists with the resolved content. -/
theorem updateA_unchanged (getenv : String → String) (w : World) (zoneID : String)
    (record : DNSRecord) (u : String) (ip : IP) (first : DNSRecord) (rest : List DNSRecord)
    (hopt : getenv "DONT_UPDATE_A" ≠ trueString)
    (hres : (getIPV4Address w.get4
      (if getenv "IPV4_QUERY_URL" ≠ "" then getenv "IPV4_QUERY_URL" else u) 0).1 = .ok ip)
    (hq : w.DNSRecords zoneID { record with RType := aRecordString } = .ok (first :: rest))
    (hsame : first.Content = ipString ip) :
    (updateA getenv w zoneID record u).1.filter Event.isWrite = [] ∧
    (updateA getenv w zoneID record u).2.1 = true := by
  unfold updateA
  simp only [getARecordIfExists, getRecordIfExists, hopt, hres, hq, hsame, if_true,
    ne_eq, not_false_eq_true]
  simp [List.filter_append, getIPV4Address_no_write, Event.isWrite]


/-- The A part of a tick when no record exists. -/
theorem updateA_created (getenv : String → String) (w : World) (zoneID : String)
    (record : DNSRecord) (u : String) (ip : IP)
    (hopt : getenv "DONT_UPDATE_A" ≠ trueString)
    (hres : (getIPV4Address w.get4
      (if getenv "IPV4_QUERY_URL" ≠ "" then getenv "IPV4_QUERY_URL" else u) 0).1 = .ok ip)
    (hq : w.DNSRecords zoneID { record with RType := aRecordString } = .ok []) :
    (updateA getenv w zoneID record u).1.filter Event.isWrite =
      [.createDNSRecord zoneID
        { record with RType := aRecordString, Content := ipString ip }] ∧
    ((updateA getenv w zoneID record u).2.1 = true ↔
      ∃ response, w.CreateDNSRecord zoneID
        { record with RType := aRecordString, Content := ipString ip } = .ok response ∧
        response.Success = true) := by
  unfold updateA
  simp only [getARecordIfExists, getRecordIfExists, createARecord, createRecord, hopt, hres,
    hq, if_true, ne_eq, not_false_eq_true]
  cases hc : w.CreateDNSRecord zoneID
      { record with RType := aRecordString, Content := ipString ip } with
  | error e =>
    simp [List.filter_append, getIPV4Address_no_write, Event.isWrite]
  | ok response =>
    cases hs : response.Success <;>
      simp [List.filter_append, getIPV4Address_no_write, Event.isWrite, hs]

/-- The A part of a tick when the record exists with another content. -/
theorem updateA_updated (getenv : String → String) (w : World) (zoneID : String)
    (record : DNSRecord) (u : String) (ip : IP) (first : DNSRecord) (rest : List DNSRecord)
    (hopt : getenv "DONT_UPDATE_A" ≠ trueString)
    (hres : (getIPV4Address w.get4
      (if getenv "IPV4_QUERY_URL" ≠ "" then getenv "IPV4_QUERY_URL" else u) 0).1 = .ok ip)
    (hq : w.DNSRecords zoneID { record with RType := aRecordString } = .ok (first :: rest))
    (hdiff : first.Content ≠ ipString ip) :
    (updateA getenv w zoneID record u).1.filter Event.isWrite =
      [.updateDNSRecord zoneID first.ID
        { record with RType := aRecordString, Content := ipString ip }] ∧
    ((updateA getenv w zoneID record u).2.1 = true ↔
      w.UpdateDNSRecord zoneID first.ID
        { record with RType := aRecordString, Content := ipString ip } = none) := by
  unfold updateA
  simp only [getARecordIfExists, getRecordIfExists, updateARecord, updateRecord, hopt, hres,
    hq, hdiff, if_true, if_false, ne_eq, not_false_eq_true]
  cases hu : w.UpdateDNSRecord zoneID first.ID
      { record with RType := aRecordString, Content := ipString ip } <;>
    simp [List.filter_append, getIPV4Address_no_write, Event.isWrite]

/-- The AAAA part of a tick when the record exists with the resolved content. -/
theorem updateAAAA_unchanged (getenv : String → String) (w : World) (zoneID : String)
    (record : DNSRecord) (u : String) (ip : IP) (first : DNSRecord) (rest : List DNSRecord)
    (hopt : getenv "DONT_UPDATE_AAAA" ≠ trueString)
    (hres : (getIPV6Address w.get6
      (if getenv "IPV6_QUERY_URL" ≠ "" then getenv "IPV6_QUERY_URL" else u) 0).1 = .ok ip)
    (hq : w.DNSRecords zoneID { record with RType := aaaaRecordString } = .ok (first :: rest))
    (hsame : first.Content = ipString ip) :
    (updateAAAA getenv w zoneID record u).1.filter Event.isWrite = [] ∧
    (updateAAAA getenv w zoneID record u).2.1 = true := by
  unfold updateAAAA
  simp only [getAAAARecordIfExists, getRecordIfExists, hopt, hres, hq, hsame, if_true,
    ne_eq, not_false_eq_true]
  simp [List.filter_append, getIPV6Address_no_write, Event.isWrite]


/-- The AAAA part of a tick when no record exists. -/
theorem updateAAAA_created (getenv : String → String) (w : World) (zoneID : String)
    (record : DNSRecord) (u : String) (ip : IP)
    (hopt : getenv "DONT_UPDATE_AAAA" ≠ trueString)
    (hres : (getIPV6Address w.get6
      (if getenv "IPV6_QUERY_URL" ≠ "" then getenv "IPV6_QUERY_URL" else u) 0).1 = .ok ip)
    (hq : w.DNSRecords zoneID { record with RType := aaaaRecordString } = .ok []) :
    (updateAAAA getenv w zoneID record u).1.filter Event.isWrite =
      [.createDNSRecord zoneID
        { record with RType := aaaaRecordString, Content := ipString ip }] ∧
    ((updateAAAA getenv w zoneID record u).2.1 = true ↔
      ∃ response, w.CreateDNSRecord zoneID
        { record with RType := aaaaRecordString, Content := ipString ip } = .ok response ∧
        response.Success = true) := by
  unfold updateAAAA
  simp only [getAAAARecordIfExists, getRecordIfExists, createAAAARecord, createRecord, hopt, hres,
    hq, if_true, ne_eq, not_false_eq_true]
  cases hc : w.CreateDNSRecord zoneID
      { record with RType := aaaaRecordString, Content := ipString ip } with
  | error e =>
    simp [List.filter_append, getIPV6Address_no_write, Event.isWrite]
  | ok response =>
    cases hs : response.Success <;>
      simp [List.filter_append, getIPV6Address_no_write, Event.isWrite, hs]

/-- The AAAA part of a tick when the record exists with another content. -/
theorem updateAAAA_updated (getenv : String → String) (w : World) (zoneID : String)
    (record : DNSRecord) (u : String) (ip : IP) (first : DNSRecord) (rest : List DNSRecord)
    (hopt : getenv "DONT_UPDATE_AAAA" ≠ trueString)
    (hres : (getIPV6Address w.get6
      (if getenv "IPV6_QUERY_URL" ≠ "" then getenv "IPV6_QUERY_URL" else u) 0).1 = .ok ip)
    (hq : w.DNSRecords zoneID { record with RType := aaaaRecordString } = .ok (first :: rest))
    (hdiff : first.Content ≠ ipString ip) :
    (updateAAAA getenv w zoneID record u).1.filter Event.isWrite =
      [.updateDNSRecord zoneID first.ID
        { record with RType := aaaaRecordString, Content := ipString ip }] ∧
    ((updateAAAA getenv w zoneID record u).2.1 = true ↔
      w.UpdateDNSRecord zoneID first.ID
        { record with RType := aaaaRecordString, Content := ipString ip } = none) := by
  unfold updateAAAA
  simp only [getAAAARecordIfExists, getRecordIfExists, updateAAAARecord, updateRecord, hopt, hres,
    hq, hdiff, if_true, if_false, ne_eq, not_false_eq_true]
  cases hu : w.UpdateDNSRecord zoneID first.ID
      { record with RType := aaaaRecordString, Content := ipString ip } <;>
    simp [List.filter_append, getIPV6Address_no_write, Event.isWrite]


/-! ## Reconciliation of one family in a tick -/

/-- C3.  For each family: in a tick in which the family is not opted out, its
address was resolved to `ip` and the record query returned a non-empty list
whose first element holds the text of `ip`, the tick issues no create and no
update call for the family, and the success flag of the family is true. -/
theorem unchanged_record_no_write (f : Family) (getenv : String → String) (cfg : Config)
    (w : World) (st : State) (zoneID : String) (ip : IP) (first : DNSRecord)
    (rest : List DNSRecord)
    (hopt : getenv f.optOut ≠ trueString)
    (hres : (f.resolve w (f.url getenv st)).1 = .ok ip)
    (hq : w.DNSRecords zoneID { cfg.dnsRecordToFind with RType := f.recordType }
      = .ok (first :: rest))
    (hsame : first.Content = ipString ip) :
    f.writes (tick getenv cfg w st zoneID).1 = [] ∧
    f.flag (tick getenv cfg w st zoneID).2.1 = true := by
  rw [writes_eq, tick_flags]
  cases f with
  | A =>
    rw [tick_calls_A]
    exact updateA_unchanged getenv w zoneID cfg.dnsRecordToFind st.url4 ip first rest
      hopt hres hq hsame
  | AAAA =>
    rw [tick_calls_AAAA]
    exact updateAAAA_unchanged getenv w zoneID cfg.dnsRecordToFind st.url6 ip first rest
      hopt hres hq hsame

/-- C4.  For each family: in a tick in which the family is not opted out, its
address was resolved to `ip` and the record query returned the empty list
without error, the only write call of the family is one create call, for the
record with the type of the family, the name `SUBDOMAIN.DNS_ZONE` and the text
of `ip` as content; there is no update call; and the success flag of the
family is true exactly when the create call returned no error and a response
that reports success. -/
theorem missing_record_created (f : Family) (getenv : String → String) (cfg : Config)
    (w : World) (st : State) (zoneID : String) (ip : IP)
    (hcfg : startup getenv = .ok cfg)
    (hopt : getenv f.optOut ≠ trueString)
    (hres : (f.resolve w (f.url getenv st)).1 = .ok ip)
    (hq : w.DNSRecords zoneID { cfg.dnsRecordToFind with RType := f.recordType } = .ok []) :
    f.writes (tick getenv cfg w st zoneID).1 =
      [.createDNSRecord zoneID
        { ID := "", RType := f.recordType,
          Name := getenv "SUBDOMAIN" ++ "." ++ getenv "DNS_ZONE",
          Content := ipString ip }] ∧
    (f.flag (tick getenv cfg w st zoneID).2.1 = true ↔
      ∃ response, w.CreateDNSRecord zoneID
        { ID := "", RType := f.recordType,
          Name := getenv "SUBDOMAIN" ++ "." ++ getenv "DNS_ZONE",
          Content := ipString ip } = .ok response ∧ response.Success = true) := by
  have hrec := startup_dnsRecordToFind getenv cfg hcfg
  rw [writes_eq, tick_flags]
  cases f with
  | A =>
    rw [tick_calls_A]
    have h := updateA_created getenv w zoneID cfg.dnsRecordToFind st.url4 ip hopt hres hq
    rw [hrec] at h ⊢
    exact h
  | AAAA =>
    rw [tick_calls_AAAA]
    have h := updateAAAA_created getenv w zoneID cfg.dnsRecordToFind st.url6 ip hopt hres hq
    rw [hrec] at h ⊢
    exact h

/-- C5.  For each family: in a tick in which the family is not opted out, its
address was resolved to `ip` and the record query returned a non-empty list
whose first element holds another content than the text of `ip`, the only
write call of the family is one update call; it targets the ID of the first
returned record and carries the type of the family and the text of `ip` as
content; there is no create call; and the success flag of the family is true
exactly when the update call returned no error. -/
theorem changed_record_updated (f : Family) (getenv : String → String) (cfg : Config)
    (w : World) (st : State) (zoneID : String) (ip : IP) (first : DNSRecord)
    (rest : List DNSRecord)
    (hopt : getenv f.optOut ≠ trueString)
    (hres : (f.resolve w (f.url getenv st)).1 = .ok ip)
    (hq : w.DNSRecords zoneID { cfg.dnsRecordToFind with RType := f.recordType }
      = .ok (first :: rest))
    (hdiff : first.Content ≠ ipString ip) :
    f.writes (tick getenv cfg w st zoneID).1 =
      [.updateDNSRecord zoneID first.ID
        { cfg.dnsRecordToFind with RType := f.recordType, Content := ipString ip }] ∧
    (f.flag (tick getenv cfg w st zoneID).2.1 = true ↔
      w.UpdateDNSRecord zoneID first.ID
        { cfg.dnsRecordToFind with RType := f.recordType, Content := ipString ip } = none) := by
  rw [writes_eq, tick_flags]
  cases f with
  | A =>
    rw [tick_calls_A]
    exact updateA_updated getenv w zoneID cfg.dnsRecordToFind st.url4 ip first rest
      hopt hres hq hdiff
  | AAAA =>
    rw [tick_calls_AAAA]
    exact updateAAAA_updated getenv w zoneID cfg.dnsRecordToFind st.url6 ip first rest
      hopt hres hq hdiff


/-- What `startup` gives for `envExample`. -/
theorem startup_envExample : startup envExample = .ok cfgExample := by
  rfl

/-- The resolver runs of the example worlds. -/
theorem resolve_examples :
    (Family.A.resolve worldExample (Family.A.url envExample initialState)).1
      = .ok (IPv4 8 8 8 8) ∧
    (Family.AAAA.resolve worldExample (Family.AAAA.url envExample initialState)).1
      = .ok [0x26, 0x06, 0x47, 0, 0, 0, 0, 0, 0, 0, 0, 0, 0, 0, 0, 1] ∧
    (Family.A.resolve worldUnchanged (Family.A.url envExample initialState)).1
      = .ok (IPv4 1 1 1 1) := by
  have hp4 : ParseIP (TrimSpace "8.8.8.8\n") = IPv4 8 8 8 8 := by decide
  have h4 : To4 (IPv4 8 8 8 8) ≠ [] := by decide
  have hp6 : ParseIP (TrimSpace "2606:4700::1\n")
      = [0x26, 0x06, 0x47, 0, 0, 0, 0, 0, 0, 0, 0, 0, 0, 0, 0, 1] := by decide
  have h6 : To16 [0x26, 0x06, 0x47, 0, 0, 0, 0, 0, 0, 0, 0, 0, 0, 0, 0, 1] ≠ [] := by decide
  have hp1 : ParseIP (TrimSpace "1.1.1.1\n") = IPv4 1 1 1 1 := by decide
  have h1 : To4 (IPv4 1 1 1 1) ≠ [] := by decide
  refine ⟨?_, ?_, ?_⟩
  · simp [Family.resolve, getIPV4Address, worldExample, echoIPv4Text, hp4, h4]
  · simp [Family.resolve, getIPV6Address, worldExample, echoIPv6Text, hp6, h6]
  · simp [Family.resolve, getIPV4Address, worldUnchanged, hp1, h1]

/-- C3 at the scenario of the specification: the echo endpoint answers
`1.1.1.1` and the A record holds `1.1.1.1`. -/
theorem unchanged_record_no_write_witness :
    envExample Family.A.optOut ≠ trueString ∧
    (Family.A.resolve worldUnchanged (Family.A.url envExample initialState)).1
      = .ok (IPv4 1 1 1 1) ∧
    ipString (IPv4 1 1 1 1) = "1.1.1.1" ∧
    Family.A.writes (tick envExample cfgExample worldUnchanged initialState "zone1").1 = [] ∧
    Family.A.flag (tick envExample cfgExample worldUnchanged initialState "zone1").2.1
      = true :=
  ⟨by decide, resolve_examples.2.2, by decide,
    unchanged_record_no_write .A envExample cfgExample worldUnchanged initialState "zone1"
      (IPv4 1 1 1 1)
      { ID := "rec4", RType := "A", Name := "home.example.com", Content := "1.1.1.1" } []
      (by decide) resolve_examples.2.2 (by rfl) (by decide)⟩

/-- C4 at the scenario of the specification: the echo endpoint answers
`8.8.8.8` and no A record exists. -/
theorem missing_record_created_witness :
    envExample Family.A.optOut ≠ trueString ∧
    (Family.A.resolve worldExample (Family.A.url envExample initialState)).1
      = .ok (IPv4 8 8 8 8) ∧
    Family.A.writes (tick envExample cfgExample worldExample initialState "zone1").1 =
      [.createDNSRecord "zone1"
        { ID := "", RType := "A", Name := "home.example.com", Content := "8.8.8.8" }] ∧
    (Family.A.flag (tick envExample cfgExample worldExample initialState "zone1").2.1 = true ↔
      ∃ response, worldExample.CreateDNSRecord "zone1"
        { ID := "", RType := "A", Name := "home.example.com", Content := "8.8.8.8" }
          = .ok response ∧ response.Success = true) :=
  ⟨by decide, resolve_examples.1,
    missing_record_created .A envExample cfgExample worldExample initialState "zone1"
      (IPv4 8 8 8 8) startup_envExample (by decide) resolve_examples.1 (by rfl)⟩

/-- C5 at the scenario of the specification: the echo endpoint answers
`2606:4700::1` and the AAAA record `rec6` holds `2606:4700::2`. -/
theorem changed_record_updated_witness :
    envExample Family.AAAA.optOut ≠ trueString ∧
    (Family.AAAA.resolve worldExample (Family.AAAA.url envExample initialState)).1
      = .ok [0x26, 0x06, 0x47, 0, 0, 0, 0, 0, 0, 0, 0, 0, 0, 0, 0, 1] ∧
    Family.AAAA.writes (tick envExample cfgExample worldExample initialState "zone1").1 =
      [.updateDNSRecord "zone1" "rec6"
        { ID := "", RType := "AAAA", Name := "home.example.com", Content := "2606:4700::1" }] ∧
    (Family.AAAA.flag (tick envExample cfgExample worldExample initialState "zone1").2.1
        = true ↔
      worldExample.UpdateDNSRecord "zone1" "rec6"
        { ID := "", RType := "AAAA", Name := "home.example.com", Content := "2606:4700::1" }
          = none) :=
  ⟨by decide, resolve_examples.2.1,
    changed_record_updated .AAAA envExample cfgExample worldExample initialState "zone1"
      [0x26, 0x06, 0x47, 0, 0, 0, 0, 0, 0, 0, 0, 0, 0, 0, 0, 1]
      { ID := "rec6", RType := "AAAA", Name := "home.example.com", Content := "2606:4700::2" } []
      (by decide) resolve_examples.2.1 (by rfl) (by decide)⟩


/-! ## Independence of the families and opt-out -/

/-- The A part of a tick depends on the world only through the answers to
the calls of the A family. -/
theorem updateA_congr (getenv : String → String) (w1 w2 : World) (zoneID : String)
    (record : DNSRecord) (u : String) (h : Family.A.Agree w1 w2) :
    updateA getenv w1 zoneID record u = updateA getenv w2 zoneID record u := by
  obtain ⟨hg, hd, hc, hu⟩ := h
  have hg1 : w1.get4 = w2.get4 := hg
  unfold updateA
  simp only [getARecordIfExists, getRecordIfExists, createARecord, createRecord,
    updateARecord, updateRecord, hg1]
  have hd1 := hd zoneID { record with RType := aRecordString } rfl
  have hc1 := fun ip => hc zoneID
    { record with RType := aRecordString, Content := ipString ip } rfl
  have hu1 := fun i ip => hu zoneID i
    { record with RType := aRecordString, Content := ipString ip } rfl
  simp only [hd1, hc1, hu1]

/-- The AAAA part of a tick depends on the world only through the answers to
the calls of the AAAA family. -/
theorem updateAAAA_congr (getenv : String → String) (w1 w2 : World) (zoneID : String)
    (record : DNSRecord) (u : String) (h : Family.AAAA.Agree w1 w2) :
    updateAAAA getenv w1 zoneID record u = updateAAAA getenv w2 zoneID record u := by
  obtain ⟨hg, hd, hc, hu⟩ := h
  have hg1 : w1.get6 = w2.get6 := hg
  unfold updateAAAA
  simp only [getAAAARecordIfExists, getRecordIfExists, createAAAARecord, createRecord,
    updateAAAARecord, updateRecord, hg1]
  have hd1 := hd zoneID { record with RType := aaaaRecordString } rfl
  have hc1 := fun ip => hc zoneID
    { record with RType := aaaaRecordString, Content := ipString ip } rfl
  have hu1 := fun i ip => hu zoneID i
    { record with RType := aaaaRecordString, Content := ipString ip } rfl
  simp only [hd1, hc1, hu1]

/-- C6.  Within one tick after client and zone setup the two families are
independent.  For each family `f`: two runs of the tick with the same
environment, configuration, state and zone ID, in worlds that give the same
answers to every remote call of `f` and may differ in any way in the answers
to the other family (errors included), issue the same remote calls of `f`, in
the same order, and end with the same success flag of `f`. -/
theorem families_independent (f : Family) (getenv : String → String) (cfg : Config)
    (w1 w2 : World) (st : State) (zoneID : String) (h : f.Agree w1 w2) :
    f.calls (tick getenv cfg w1 st zoneID).1 = f.calls (tick getenv cfg w2 st zoneID).1 ∧
    f.flag (tick getenv cfg w1 st zoneID).2.1 = f.flag (tick getenv cfg w2 st zoneID).2.1 := by
  rw [tick_flags, tick_flags]
  cases f with
  | A =>
    rw [tick_calls_A, tick_calls_A, updateA_congr getenv w1 w2 zoneID _ _ h]
    exact ⟨rfl, rfl⟩
  | AAAA =>
    rw [tick_calls_AAAA, tick_calls_AAAA, updateAAAA_congr getenv w1 w2 zoneID _ _ h]
    exact ⟨rfl, rfl⟩

/-- The worlds `worldExample` and `worldAFails` answer the AAAA calls alike. -/
theorem worldAFails_agree : Family.AAAA.Agree worldExample worldAFails := by
  have hne : ¬ ("AAAA" = "A") := by decide
  refine ⟨rfl, ?_, ?_, ?_⟩
  · intro z r hr
    have hr1 : r.RType = "AAAA" := hr
    simp [worldAFails, hr1, hne]
  · intro z r hr
    have hr1 : r.RType = "AAAA" := hr
    simp [worldAFails, hr1, hne]
  · intro z i r hr
    have hr1 : r.RType = "AAAA" := hr
    simp [worldAFails, hr1, hne]

/-- C6 at a concrete input: every remote call of the A family fails in the
second world and succeeds in the first; the AAAA calls and the AAAA flag of
the two runs are the same. -/
theorem families_independent_witness :
    Family.AAAA.Agree worldExample worldAFails ∧
    (Family.AAAA.calls (tick envExample cfgExample worldExample initialState "zone1").1 =
      Family.AAAA.calls (tick envExample cfgExample worldAFails initialState "zone1").1 ∧
     Family.AAAA.flag (tick envExample cfgExample worldExample initialState "zone1").2.1 =
      Family.AAAA.flag (tick envExample cfgExample worldAFails initialState "zone1").2.1) :=
  ⟨worldAFails_agree,
    families_independent .AAAA envExample cfgExample worldExample worldAFails initialState
      "zone1" worldAFails_agree⟩

theorem updateA_calls_ne_nil (getenv : String → String) (w : World) (zoneID : String)
    (record : DNSRecord) (u : String) (hopt : getenv "DONT_UPDATE_A" ≠ trueString) :
    (updateA getenv w zoneID record u).1 ≠ [] := by
  unfold updateA
  simp only [hopt, if_true, ne_eq, not_false_eq_true]
  repeat' split
  all_goals simp [getIPV4Address_events_ne_nil]

theorem updateAAAA_calls_ne_nil (getenv : String → String) (w : World) (zoneID : String)
    (record : DNSRecord) (u : String) (hopt : getenv "DONT_UPDATE_AAAA" ≠ trueString) :
    (updateAAAA getenv w zoneID record u).1 ≠ [] := by
  unfold updateAAAA
  simp only [hopt, if_true, ne_eq, not_false_eq_true]
  repeat' split
  all_goals simp [getIPV6Address_events_ne_nil]

/-- C7.  For each family, in every tick after client and zone setup: the
family issues no remote call at all (no echo GET and no list, create or update
call of its type) if and only if its opt-out variable is exactly the text
`true`, and then its success flag is false.  The empty text, `TRUE` and `1`
are not that text, so they do not opt out. -/
theorem opt_out_iff_no_call (f : Family) (getenv : String → String) (cfg : Config)
    (w : World) (st : State) (zoneID : String) :
    (f.calls (tick getenv cfg w st zoneID).1 = [] ↔ getenv f.optOut = trueString) ∧
    (getenv f.optOut = trueString → f.flag (tick getenv cfg w st zoneID).2.1 = false) ∧
    ("" ≠ trueString ∧ "TRUE" ≠ trueString ∧ "1" ≠ trueString) := by
  refine ⟨?_, ?_, by decide⟩
  · cases f with
    | A =>
      rw [tick_calls_A]
      constructor
      · intro h
        by_contra hopt
        exact updateA_calls_ne_nil getenv w zoneID _ _ hopt h
      · intro hopt
        have hopt1 : getenv "DONT_UPDATE_A" = trueString := hopt
        simp [updateA, hopt1]
    | AAAA =>
      rw [tick_calls_AAAA]
      constructor
      · intro h
        by_contra hopt
        exact updateAAAA_calls_ne_nil getenv w zoneID _ _ hopt h
      · intro hopt
        have hopt1 : getenv "DONT_UPDATE_AAAA" = trueString := hopt
        simp [updateAAAA, hopt1]
  · intro hopt
    rw [tick_flags]
    cases f with
    | A =>
      have hopt1 : getenv "DONT_UPDATE_A" = trueString := hopt
      simp [Family.flag, updateA, hopt1]
    | AAAA =>
      have hopt1 : getenv "DONT_UPDATE_AAAA" = trueString := hopt
      simp [Family.flag, updateAAAA, hopt1]


/-! ## The loop -/

theorem owns_not_summary (f : Family) (e : Event) (h : f.owns e = true) :
    e.isSummary = false ∧ e.isSleep = false := by
  cases e <;> simp [Family.owns, Event.isSummary, Event.isSleep] at h ⊢

theorem updateA_no_summary (getenv : String → String) (w : World) (zoneID : String)
    (record : DNSRecord) (u : String) :
    ∀ e ∈ (updateA getenv w zoneID record u).1, e.isSummary = false ∧ e.isSleep = false :=
  fun e he => owns_not_summary .A e (updateA_owned getenv w zoneID record u e he).1

theorem updateAAAA_no_summary (getenv : String → String) (w : World) (zoneID : String)
    (record : DNSRecord) (u : String) :
    ∀ e ∈ (updateAAAA getenv w zoneID record u).1, e.isSummary = false ∧ e.isSleep = false :=
  fun e he => owns_not_summary .AAAA e (updateAAAA_owned getenv w zoneID record u e he).1

/-- The events of a tick: remote calls of the two families, then the summary
line, then a sleep unless the program runs once. -/
theorem tick_events (getenv : String → String) (cfg : Config) (w : World) (st : State)
    (zoneID : String) :
    ∃ calls a b,
      (∀ e ∈ calls, e.isSummary = false ∧ e.isSleep = false) ∧
      (getenv "UPDATE_ONCE" = trueString →
        (tick getenv cfg w st zoneID).1 = calls ++ [.summary a b] ∧
        (tick getenv cfg w st zoneID).2.2.updateOnce = true) ∧
      (getenv "UPDATE_ONCE" ≠ trueString →
        (tick getenv cfg w st zoneID).1 = calls ++ [.summary a b, .sleep cfg.updateInterval] ∧
        (tick getenv cfg w st zoneID).2.2.updateOnce = st.updateOnce) := by
  refine ⟨(updateA getenv w zoneID cfg.dnsRecordToFind st.url4).1 ++
      (updateAAAA getenv w zoneID cfg.dnsRecordToFind st.url6).1,
    (updateA getenv w zoneID cfg.dnsRecordToFind st.url4).2.1,
    (updateAAAA getenv w zoneID cfg.dnsRecordToFind st.url6).2.1, ?_, ?_, ?_⟩
  · intro e he
    rcases List.mem_append.mp he with h | h
    · exact updateA_no_summary _ _ _ _ _ e h
    · exact updateAAAA_no_summary _ _ _ _ _ e h
  · intro h
    simp [tick, h]
  · intro h
    simp [tick, h]

/-- One round of the loop either ends in `break`, having issued setup calls
only, or issues setup calls and then runs a tick. -/
theorem loopBody_cases (getenv : String → String) (cfg : Config) (w : World) (st : State) :
    ((loopBody getenv cfg w st).2 = none ∧
      ∀ e ∈ (loopBody getenv cfg w st).1, e.isSummary = false ∧ e.isSleep = false) ∨
    (∃ setup zoneID,
      (∀ e ∈ setup, e.isSummary = false ∧ e.isSleep = false) ∧
      (loopBody getenv cfg w st).1 = setup ++ (tick getenv cfg w st zoneID).1 ∧
      (loopBody getenv cfg w st).2 = some (tick getenv cfg w st zoneID).2.2) := by
  unfold loopBody
  simp only [getZoneID]
  repeat' split
  all_goals simp_all [Event.isSummary, Event.isSleep]
  all_goals first
    | exact ⟨[.newClient _ _, .zoneIDByName _], by simp, _, rfl, rfl⟩
    | exact ⟨[.newClient _ _], by simp, _, rfl, rfl⟩
    | exact ⟨[.zoneIDByName _], by simp, _, rfl, rfl⟩
    | exact ⟨[], by simp, _, rfl, rfl⟩


theorem sleeps_append (d : Int) (l1 l2 : List Event)
    (h : ∀ e ∈ l1, e.isSummary = false ∧ e.isSleep = false) :
    SleepsAfterEverySummary d (l1 ++ l2) ↔ SleepsAfterEverySummary d l2 := by
  induction l1 with
  | nil => simp
  | cons e l ih =>
    have he := (h e (List.mem_cons_self _ _)).1
    have ih1 := ih fun x hx => h x (List.mem_cons_of_mem _ hx)
    cases e <;> simp_all [SleepsAfterEverySummary, Event.isSummary]

theorem sleeps_of_no_summary (d : Int) (l : List Event)
    (h : ∀ e ∈ l, e.isSummary = false ∧ e.isSleep = false) :
    SleepsAfterEverySummary d l := by
  have := (sleeps_append d l [] h).mpr (by simp [SleepsAfterEverySummary])
  simpa using this

/-- Without run-once, every summary line of a run of the loop is directly
followed by the sleep, and the loop condition never becomes false. -/
theorem mainLoop_sleeps (getenv : String → String) (cfg : Config)
    (hU : getenv "UPDATE_ONCE" ≠ trueString) :
    ∀ (fuel : Nat) (worlds : Nat → World) (st : State), st.updateOnce = false →
      SleepsAfterEverySummary cfg.updateInterval (mainLoop getenv cfg fuel worlds st).1 ∧
      (mainLoop getenv cfg fuel worlds st).2 ≠ .finished := by
  intro fuel
  induction fuel with
  | zero =>
    intro worlds st _
    simp [mainLoop, SleepsAfterEverySummary]
  | succ n ih =>
    intro worlds st hst
    unfold mainLoop
    simp only [hst, Bool.false_eq_true, if_false]
    rcases loopBody_cases getenv cfg (worlds 0) st with ⟨hnone, hev⟩ | ⟨setup, z, hsetup, hev, hst1⟩
    · simp only [hnone]
      exact ⟨sleeps_of_no_summary _ _ hev, by simp⟩
    · obtain ⟨calls, a, b, hcalls, _, hloop⟩ := tick_events getenv cfg (worlds 0) st z
      obtain ⟨htick, hflag⟩ := hloop hU
      simp only [hst1]
      have IH := ih (fun k => worlds (k + 1)) (tick getenv cfg (worlds 0) st z).2.2
        (by rw [hflag]; exact hst)
      refine ⟨?_, IH.2⟩
      rw [hev, htick, List.append_assoc, List.append_assoc, sleeps_append _ _ _ hsetup,
        sleeps_append _ _ _ hcalls]
      simp only [List.cons_append, List.nil_append, SleepsAfterEverySummary]
      exact ⟨⟨_, rfl⟩, IH.1⟩

/-- With run-once, a first round that passes client and zone setup is the
only round: the loop ends after it, the run holds exactly one summary line,
which is its last event, and no sleep. -/
theorem mainLoop_once (getenv : String → String) (cfg : Config)
    (hU : getenv "UPDATE_ONCE" = trueString) (fuel : Nat) (worlds : Nat → World)
    (st : State) (hst : st.updateOnce = false) (st1 : State)
    (hbody : (loopBody getenv cfg (worlds 0) st).2 = some st1) :
    (mainLoop getenv cfg (fuel + 2) worlds st).2 = .finished ∧
    ((mainLoop getenv cfg (fuel + 2) worlds st).1.filter Event.isSummary).length = 1 ∧
    (∃ a b, (mainLoop getenv cfg (fuel + 2) worlds st).1.getLast? = some (.summary a b)) ∧
    (mainLoop getenv cfg (fuel + 2) worlds st).1.filter Event.isSleep = [] := by
  rcases loopBody_cases getenv cfg (worlds 0) st with ⟨hnone, _⟩ | ⟨setup, z, hsetup, hev, hst1⟩
  · rw [hnone] at hbody
    exact absurd hbody (by simp)
  · obtain ⟨calls, a, b, hcalls, honce, _⟩ := tick_events getenv cfg (worlds 0) st z
    obtain ⟨htick, hflag⟩ := honce hU
    have hsum : ∀ l : List Event, (∀ e ∈ l, e.isSummary = false ∧ e.isSleep = false) →
        l.filter Event.isSummary = [] ∧ l.filter Event.isSleep = [] := by
      intro l hl
      exact ⟨List.filter_eq_nil_iff.mpr fun e he => by simp [(hl e he).1],
        List.filter_eq_nil_iff.mpr fun e he => by simp [(hl e he).2]⟩
    have hrun : mainLoop getenv cfg (fuel + 2) worlds st =
        (setup ++ (calls ++ [.summary a b]), .finished) := by
      rw [mainLoop]
      simp only [hst, Bool.false_eq_true, if_false, hst1]
      rw [mainLoop]
      simp [hflag, hev, htick]
    rw [hrun]
    refine ⟨rfl, ?_, ⟨a, b, ?_⟩, ?_⟩
    · simp [List.filter_append, (hsum setup hsetup).1, (hsum calls hcalls).1, Event.isSummary]
    · simp [List.getLast?_append]
    · simp [List.filter_append, (hsum setup hsetup).2, (hsum calls hcalls).2, Event.isSleep]


theorem main_of_startup (getenv : String → String) (cfg : Config) (worlds : Nat → World)
    (fuel : Nat) (hcfg : startup getenv = .ok cfg) :
    main getenv worlds fuel =
      ((mainLoop getenv cfg fuel worlds initialState).1,
        .ok (mainLoop getenv cfg fuel worlds initialState).2) := by
  simp [main, hcfg]

theorem loopBody_initial (getenv : String → String) (cfg : Config) (w : World)
    (zoneID : String)
    (hnew : w.New (getenv "CLOUDFLARE_API_KEY") (getenv "CLOUDFLARE_EMAIL") = none)
    (hzone : w.ZoneIDByName (getenv "DNS_ZONE") = .ok zoneID) :
    (loopBody getenv cfg w initialState).2 =
      some (tick getenv cfg w initialState zoneID).2.2 := by
  simp [loopBody, initialState, getZoneID, hnew, hzone]

/-- C8, as amended.  For a run of `main` that passed the start with
configuration `cfg`:
when `UPDATE_ONCE` is exactly `true` and the client and zone setup of the
first round succeed, exactly one tick executes: the run holds exactly one
summary line, which is its last event, the loop then ends, and there is no
sleep;
when `UPDATE_ONCE` is not `true`, every summary line (the end of a completed
tick) is directly followed by a sleep of the configured update interval, and
the loop condition never becomes false. -/
theorem run_once_or_sleep (getenv : String → String) (cfg : Config) (worlds : Nat → World)
    (fuel : Nat) (hcfg : startup getenv = .ok cfg) :
    (getenv "UPDATE_ONCE" = trueString →
      (worlds 0).New (getenv "CLOUDFLARE_API_KEY") (getenv "CLOUDFLARE_EMAIL") = none →
      (∃ zoneID, (worlds 0).ZoneIDByName (getenv "DNS_ZONE") = .ok zoneID) →
        (main getenv worlds (fuel + 2)).2 = .ok .finished ∧
        ((main getenv worlds (fuel + 2)).1.filter Event.isSummary).length = 1 ∧
        (∃ a b, (main getenv worlds (fuel + 2)).1.getLast? = some (.summary a b)) ∧
        (main getenv worlds (fuel + 2)).1.filter Event.isSleep = []) ∧
    (getenv "UPDATE_ONCE" ≠ trueString →
        SleepsAfterEverySummary cfg.updateInterval (main getenv worlds fuel).1 ∧
        (main getenv worlds fuel).2 ≠ .ok .finished) := by
  constructor
  · intro hU hnew hzone
    obtain ⟨zoneID, hzone⟩ := hzone
    rw [main_of_startup getenv cfg worlds _ hcfg]
    have h := mainLoop_once getenv cfg hU fuel worlds initialState rfl _
      (loopBody_initial getenv cfg (worlds 0) zoneID hnew hzone)
    exact ⟨by rw [h.1], h.2⟩
  · intro hU
    rw [main_of_startup getenv cfg worlds _ hcfg]
    have h := mainLoop_sleeps getenv cfg hU fuel worlds initialState rfl
    refine ⟨h.1, ?_⟩
    intro hfin
    injection hfin with hfin
    exact h.2 hfin

/-- C8 as amended, at concrete inputs: a run-once run and a run of three
rounds without run-once, the remote calls succeeding. -/
theorem run_once_or_sleep_witness :
    startup envOnce = .ok cfgExample ∧
    ((main envOnce (fun _ => worldExample) 2).2 = .ok .finished ∧
      ((main envOnce (fun _ => worldExample) 2).1.filter Event.isSummary).length = 1 ∧
      (∃ a b, (main envOnce (fun _ => worldExample) 2).1.getLast? = some (.summary a b)) ∧
      (main envOnce (fun _ => worldExample) 2).1.filter Event.isSleep = []) ∧
    startup envExample = .ok cfgExample ∧
    (SleepsAfterEverySummary 300000000000 (main envExample (fun _ => worldExample) 3).1 ∧
      (main envExample (fun _ => worldExample) 3).2 ≠ .ok .finished) :=
  ⟨rfl,
    (run_once_or_sleep envOnce cfgExample (fun _ => worldExample) 0 rfl).1
      (by decide) rfl ⟨"zone1", rfl⟩,
    rfl,
    (run_once_or_sleep envExample cfgExample (fun _ => worldExample) 3 rfl).2 (by decide)⟩

/-- C8, the claim as stated fails: with `UPDATE_ONCE` set to `true` and a
zone lookup that fails, the loop is left by `break` in its first round.  The
run holds the two setup calls and nothing else: no tick is completed and no
summary line is written, however long the run is followed. -/
theorem run_once_zone_lookup_fails :
    envOnce "UPDATE_ONCE" = trueString ∧
    ∀ fuel, main envOnce (fun _ => worldZoneFails) (fuel + 1) =
      ([.newClient "secret" "admin@example.com", .zoneIDByName "example.com"],
        .ok .broke) :=
  ⟨by decide, fun _ => rfl⟩


/-! ## The start of `main` -/

/-- What `Atoi` accepts is a decimal integer. -/
theorem Atoi_isDecimalInteger (s : String) (n : Int) (h : Atoi s = some n) :
    IsDecimalInteger s := by
  unfold Atoi at h
  unfold IsDecimalInteger
  cases hd : s.data with
  | nil => simp [hd] at h
  | cons c cs =>
    simp only [hd] at h ⊢
    by_cases hs : c = '-' ∨ c = '+'
    · have hb : (c == '-' || c == '+') = true := by simpa using hs
      simp only [hb, if_true, hs] at h ⊢
      by_cases he : cs.isEmpty = true
      · simp [he] at h
      · by_cases ha : cs.all isDigit = true
        · refine ⟨?_, ?_⟩
          · intro h0
            simp [h0] at he
          · intro d hdm
            exact List.all_eq_true.mp ha d hdm
        · simp [he, ha] at h
    · have hb : (c == '-' || c == '+') = false := by simpa using hs
      simp only [hb, hs, if_false] at h ⊢
      by_cases ha : (c :: cs).all isDigit = true
      · intro d hdm
        exact List.all_eq_true.mp ha d hdm
      · simp [ha] at h

theorem Atoi_none_of_not_decimal (s : String) (h : ¬ IsDecimalInteger s) : Atoi s = none := by
  cases ha : Atoi s with
  | none => rfl
  | some n => exact absurd (Atoi_isDecimalInteger s n ha) h


/-- A malformed number ends the start of `main` in an exit.  With the four
required variables set, the exit is the fatal error of `Atoi`. -/
theorem startup_malformed (getenv : String → String)
    (h : (getenv "HTTP_TIMEOUT" ≠ "" ∧ ¬ IsDecimalInteger (getenv "HTTP_TIMEOUT")) ∨
      (getenv "UPDATE_INTERVAL" ≠ "" ∧ ¬ IsDecimalInteger (getenv "UPDATE_INTERVAL"))) :
    (∃ e, startup getenv = .error e) ∧
    (getenv "CLOUDFLARE_API_KEY" ≠ "" → getenv "CLOUDFLARE_EMAIL" ≠ "" →
      getenv "DNS_ZONE" ≠ "" → getenv "SUBDOMAIN" ≠ "" →
      ∃ var, (var = "HTTP_TIMEOUT" ∨ var = "UPDATE_INTERVAL") ∧
        startup getenv = .error (.fatalAtoi var (getenv var))) := by
  have key : getenv "CLOUDFLARE_API_KEY" ≠ "" → getenv "CLOUDFLARE_EMAIL" ≠ "" →
      getenv "DNS_ZONE" ≠ "" → getenv "SUBDOMAIN" ≠ "" →
      ∃ var, (var = "HTTP_TIMEOUT" ∨ var = "UPDATE_INTERVAL") ∧
        startup getenv = .error (.fatalAtoi var (getenv var)) := by
    intro h1 h2 h3 h4
    simp only [startup, h1, h2, h3, h4, if_false]
    rcases h with ⟨hne, hbad⟩ | ⟨hne, hbad⟩
    · refine ⟨"HTTP_TIMEOUT", Or.inl rfl, ?_⟩
      simp [hne, Atoi_none_of_not_decimal _ hbad]
    · by_cases ht : getenv "HTTP_TIMEOUT" ≠ ""
      · cases hta : Atoi (getenv "HTTP_TIMEOUT") with
        | none => exact ⟨"HTTP_TIMEOUT", Or.inl rfl, by simp [ht, hta]⟩
        | some t =>
          exact ⟨"UPDATE_INTERVAL", Or.inr rfl,
            by simp [ht, hta, hne, Atoi_none_of_not_decimal _ hbad]⟩
      · exact ⟨"UPDATE_INTERVAL", Or.inr rfl,
          by simp [ht, hne, Atoi_none_of_not_decimal _ hbad]⟩
  refine ⟨?_, key⟩
  by_cases h1 : getenv "CLOUDFLARE_API_KEY" = ""
  · exact ⟨.usage, by simp [startup, h1]⟩
  by_cases h2 : getenv "CLOUDFLARE_EMAIL" = ""
  · exact ⟨.fatalMissing "CLOUDFLARE_EMAIL", by simp [startup, h1, h2]⟩
  by_cases h3 : getenv "DNS_ZONE" = ""
  · exact ⟨.fatalMissing "DNS_ZONE", by simp [startup, h1, h2, h3]⟩
  by_cases h4 : getenv "SUBDOMAIN" = ""
  · exact ⟨.fatalMissing "SUBDOMAIN", by simp [startup, h1, h2, h3, h4]⟩
  obtain ⟨var, _, hv⟩ := key h1 h2 h3 h4
  exact ⟨_, hv⟩

/-- The defaults of the two numbers. -/
theorem startup_defaults (getenv : String → String) (cfg : Config)
    (h : startup getenv = .ok cfg) :
    (getenv "HTTP_TIMEOUT" = "" → cfg.httpTimeout = 5) ∧
    (getenv "UPDATE_INTERVAL" = "" → cfg.updateInterval = 5 * Minute) := by
  simp only [startup] at h
  constructor
  · intro ht
    simp only [ht, ne_eq, not_true_eq_false, if_false] at h
    repeat' split at h
    all_goals first
      | (injection h with h; subst h; rfl)
      | (exact absurd h (by simp))
  · intro hi
    simp only [hi, ne_eq, not_true_eq_false, if_false] at h
    repeat' split at h
    all_goals first
      | (injection h with h; subst h; rfl)
      | (exact absurd h (by simp))


/-- C9.  When `HTTP_TIMEOUT` or `UPDATE_INTERVAL` is set to a non-empty text
that is not a decimal integer, `main` ends in an exit before the loop is
entered and has made no remote call, however long it is followed; with the
four required variables set, that exit is the fatal error of `strconv.Atoi`
for one of the two variables.  When `main` passes the start and
`HTTP_TIMEOUT` is unset or empty, the timeout number is 5 and the request
timeout of the HTTP client is 5 seconds; when `UPDATE_INTERVAL` is unset or
empty, the update interval is 5 minutes. -/
theorem malformed_number_is_fatal (getenv : String → String) (worlds : Nat → World)
    (fuel : Nat) :
    (((getenv "HTTP_TIMEOUT" ≠ "" ∧ ¬ IsDecimalInteger (getenv "HTTP_TIMEOUT")) ∨
      (getenv "UPDATE_INTERVAL" ≠ "" ∧ ¬ IsDecimalInteger (getenv "UPDATE_INTERVAL"))) →
      (∃ e, main getenv worlds fuel = ([], .error e)) ∧
      (getenv "CLOUDFLARE_API_KEY" ≠ "" → getenv "CLOUDFLARE_EMAIL" ≠ "" →
        getenv "DNS_ZONE" ≠ "" → getenv "SUBDOMAIN" ≠ "" →
        ∃ var, (var = "HTTP_TIMEOUT" ∨ var = "UPDATE_INTERVAL") ∧
          main getenv worlds fuel = ([], .error (.fatalAtoi var (getenv var))))) ∧
    (∀ cfg, startup getenv = .ok cfg →
      (getenv "HTTP_TIMEOUT" = "" →
        cfg.httpTimeout = 5 ∧
        (createHTTPClient dialTCP4 cfg.httpTimeout).Timeout = 5 * Second ∧
        (createHTTPClient dialTCP6 cfg.httpTimeout).Timeout = 5 * Second) ∧
      (getenv "UPDATE_INTERVAL" = "" → cfg.updateInterval = 5 * Minute)) := by
  constructor
  · intro h
    obtain ⟨⟨e, he⟩, hfatal⟩ := startup_malformed getenv h
    refine ⟨⟨e, by simp [main, he]⟩, ?_⟩
    intro h1 h2 h3 h4
    obtain ⟨var, hvar, hv⟩ := hfatal h1 h2 h3 h4
    exact ⟨var, hvar, by simp [main, hv]⟩
  · intro cfg hcfg
    obtain ⟨ht, hi⟩ := startup_defaults getenv cfg hcfg
    refine ⟨?_, hi⟩
    intro h0
    have h5 := ht h0
    rw [h5]
    exact ⟨rfl, by decide, by decide⟩

/-- C9 at concrete inputs: `HTTP_TIMEOUT` set to `abc` ends `main` in the
fatal error of `Atoi` with no remote call; without the two variables the
defaults are kept. -/
theorem malformed_number_is_fatal_witness :
    (envBadTimeout "HTTP_TIMEOUT" ≠ "" ∧ ¬ IsDecimalInteger (envBadTimeout "HTTP_TIMEOUT")) ∧
    main envBadTimeout (fun _ => worldExample) 5 =
      ([], .error (.fatalAtoi "HTTP_TIMEOUT" "abc")) ∧
    startup envExample = .ok cfgExample ∧
    (cfgExample.httpTimeout = 5 ∧
      (createHTTPClient dialTCP4 cfgExample.httpTimeout).Timeout = 5 * Second ∧
      (createHTTPClient dialTCP6 cfgExample.httpTimeout).Timeout = 5 * Second) ∧
    cfgExample.updateInterval = 5 * Minute := by
  have hbad : envBadTimeout "HTTP_TIMEOUT" ≠ "" ∧
      ¬ IsDecimalInteger (envBadTimeout "HTTP_TIMEOUT") := by
    refine ⟨by decide, ?_⟩
    intro h
    have h1 : IsDecimalInteger "abc" := h
    simp [IsDecimalInteger, isDigit] at h1
  have hd := (malformed_number_is_fatal envExample (fun _ => worldExample) 5).2
    cfgExample rfl
  exact ⟨hbad, rfl, rfl, hd.1 rfl, hd.2 rfl⟩


/-! ## The default query URL -/

/-- C10, the code at the failing input.  With `IPV4_QUERY_URL` and
`IPV6_QUERY_URL` unset, a complete run-once run of `main` sends both echo GETs
to `http://icanhazip.com/`, the initial value of `url4` and `url6`, which is
not the default `http://canihazip.com/` that the usage text documents.  The
run is the one of the scenarios: the A record is created with `8.8.8.8`, the
AAAA record `rec6` is updated to `2606:4700::1`, and both flags are true. -/
theorem default_url_is_not_the_documented_one :
    envOnce "IPV4_QUERY_URL" = "" ∧ envOnce "IPV6_QUERY_URL" = "" ∧
    main envOnce (fun _ => worldExample) 2 =
      ([.newClient "secret" "admin@example.com",
        .zoneIDByName "example.com",
        .get4 "http://icanhazip.com/",
        .dnsRecords "zone1"
          { ID := "", RType := "A", Name := "home.example.com", Content := "" },
        .createDNSRecord "zone1"
          { ID := "", RType := "A", Name := "home.example.com", Content := "8.8.8.8" },
        .get6 "http://icanhazip.com/",
        .dnsRecords "zone1"
          { ID := "", RType := "AAAA", Name := "home.example.com", Content := "" },
        .updateDNSRecord "zone1" "rec6"
          { ID := "", RType := "AAAA", Name := "home.example.com",
            Content := "2606:4700::1" },
        .summary true true],
       .ok .finished) ∧
    usageDefaultURL = "http://canihazip.com/" ∧
    url4 ≠ usageDefaultURL ∧ url6 ≠ usageDefaultURL := by
  have hp4 : ParseIP (TrimSpace "8.8.8.8\n") = IPv4 8 8 8 8 := by decide
  have h4 : To4 (IPv4 8 8 8 8) ≠ [] := by decide
  have hs4 : ipString (IPv4 8 8 8 8) = "8.8.8.8" := by decide
  have hp6 : ParseIP (TrimSpace "2606:4700::1\n")
      = [0x26, 0x06, 0x47, 0, 0, 0, 0, 0, 0, 0, 0, 0, 0, 0, 0, 1] := by decide
  have h6 : To16 [0x26, 0x06, 0x47, 0, 0, 0, 0, 0, 0, 0, 0, 0, 0, 0, 0, 1] ≠ [] := by decide
  have hs6 : ipString [0x26, 0x06, 0x47, 0, 0, 0, 0, 0, 0, 0, 0, 0, 0, 0, 0, 1]
      = "2606:4700::1" := by decide
  have r4 : getIPV4Address worldExample.get4 "http://icanhazip.com/" 0
      = (.ok (IPv4 8 8 8 8), [.get4 "http://icanhazip.com/"]) := by
    rw [getIPV4Address]
    simp [worldExample, echoIPv4Text, hp4, h4]
  have r6 : getIPV6Address worldExample.get6 "http://icanhazip.com/" 0
      = (.ok [0x26, 0x06, 0x47, 0, 0, 0, 0, 0, 0, 0, 0, 0, 0, 0, 0, 1],
          [.get6 "http://icanhazip.com/"]) := by
    rw [getIPV6Address]
    simp [worldExample, echoIPv6Text, hp6, h6]
  have ha : updateA envOnce worldExample "zone1" cfgExample.dnsRecordToFind url4 =
      ([.get4 "http://icanhazip.com/",
        .dnsRecords "zone1"
          { ID := "", RType := "A", Name := "home.example.com", Content := "" },
        .createDNSRecord "zone1"
          { ID := "", RType := "A", Name := "home.example.com", Content := "8.8.8.8" }],
        true, "http://icanhazip.com/") := by
    have e1 : envOnce "DONT_UPDATE_A" ≠ trueString := by decide
    have e2 : envOnce "IPV4_QUERY_URL" = "" := by decide
    unfold updateA
    simp only [e1, e2, url4, r4, ne_eq, not_true_eq_false, not_false_eq_true, if_true,
      if_false, hs4]
    rfl
  have hb : updateAAAA envOnce worldExample "zone1" cfgExample.dnsRecordToFind url6 =
      ([.get6 "http://icanhazip.com/",
        .dnsRecords "zone1"
          { ID := "", RType := "AAAA", Name := "home.example.com", Content := "" },
        .updateDNSRecord "zone1" "rec6"
          { ID := "", RType := "AAAA", Name := "home.example.com",
            Content := "2606:4700::1" }],
        true, "http://icanhazip.com/") := by
    have e1 : envOnce "DONT_UPDATE_AAAA" ≠ trueString := by decide
    have e2 : envOnce "IPV6_QUERY_URL" = "" := by decide
    unfold updateAAAA
    simp only [e1, e2, url6, r6, ne_eq, not_true_eq_false, not_false_eq_true, if_true,
      if_false, hs6]
    rfl
  refine ⟨by decide, by decide, ?_, rfl, by decide, by decide⟩
  have hst : startup envOnce = .ok cfgExample := rfl
  have ht : tick envOnce cfgExample worldExample initialState "zone1" =
      ([.get4 "http://icanhazip.com/",
        .dnsRecords "zone1"
          { ID := "", RType := "A", Name := "home.example.com", Content := "" },
        .createDNSRecord "zone1"
          { ID := "", RType := "A", Name := "home.example.com", Content := "8.8.8.8" },
        .get6 "http://icanhazip.com/",
        .dnsRecords "zone1"
          { ID := "", RType := "AAAA", Name := "home.example.com", Content := "" },
        .updateDNSRecord "zone1" "rec6"
          { ID := "", RType := "AAAA", Name := "home.example.com",
            Content := "2606:4700::1" },
        .summary true true], (true, true),
        { cloudflareAPIInstance := true, zoneID := "zone1",
          url4 := "http://icanhazip.com/", url6 := "http://icanhazip.com/",
          updateOnce := true }) := by
    have e3 : envOnce "UPDATE_ONCE" = trueString := by decide
    have ha1 : updateA envOnce worldExample "zone1" cfgExample.dnsRecordToFind
        initialState.url4 = _ := ha
    have hb1 : updateAAAA envOnce worldExample "zone1" cfgExample.dnsRecordToFind
        initialState.url6 = _ := hb
    unfold tick
    simp only [e3, if_true, ha1, hb1]
    rfl
  have hl : loopBody envOnce cfgExample worldExample initialState =
      (.newClient "secret" "admin@example.com" :: .zoneIDByName "example.com" ::
        (tick envOnce cfgExample worldExample initialState "zone1").1,
       some (tick envOnce cfgExample worldExample initialState "zone1").2.2) := rfl
  rw [main_of_startup envOnce cfgExample _ _ hst]
  rw [mainLoop]
  simp only [initialState, Bool.false_eq_true, if_false]
  have hl1 : loopBody envOnce cfgExample worldExample
      { cloudflareAPIInstance := false, zoneID := "", url4 := url4, url6 := url6,
        updateOnce := false } = _ := hl
  rw [hl1, ht]
  simp [mainLoop]


end CloudflareDDNS
